import Mathlib

/-!
Shallow embedding of the OmniHear gesture-animation core
(src/RobotHand.ts: classes RobotHand and RobotAvatar, and the
ASL_ALPHABET pose library), together with proofs about the claims of
the specification.

Modelling conventions:
* JavaScript numbers are modelled by `JSNum := Option ℚ`: `some q` is a
  finite number, `none` is NaN.  All arithmetic appearing in the
  animation core is linear arithmetic on finite inputs plus the
  transcendental functions `Math.sin` / `Math.cos`, which are passed in
  as abstract parameters `sin cos : ℚ → ℚ` (IEEE sine and cosine of a
  finite number are finite, so a total function on ℚ is faithful).
  `Math.random()` draws are passed in as an abstract per-tick stream
  `rand : ℕ → ℚ` (draw number ↦ value).
* `Date.now()` (wall clock, used by the playback sequencer) and
  `clock.getElapsedTime()` (monotonic elapsed time, used by the gesture
  waveforms) are two distinct explicit tick parameters `now` and `time`.
* The `console.log` / `console.error` calls are pure logging; the one
  that matters to the spec (the NaN warning inside `RobotHand.update`)
  is made observable by returning a Boolean flag from `update`.
* The THREE.js scene graph is reduced to the joint rotations the code
  writes: the wrist rotation and, for each finger, the rotation.x of
  its three segments.
-/

set_option maxHeartbeats 1000000
set_option maxRecDepth 4000

/-- A JavaScript number: `some q` is a finite value, `none` is NaN. -/
abbrev JSNum : Type := Option ℚ

/-- The five fingers (the keys of the fingerCurls records). -/
inductive Finger where
  | thumb | index | middle | ring | pinky
  deriving DecidableEq, Repr

/-- A record with one field per finger (source: the
`{thumb, index, middle, ring, pinky}` object shape). -/
structure FingerCurls (α : Type) where
  thumb : α
  index : α
  middle : α
  ring : α
  pinky : α
  deriving DecidableEq, Repr

/-- Field access by finger name. -/
def FingerCurls.get {α : Type} (c : FingerCurls α) : Finger → α
  | .thumb => c.thumb
  | .index => c.index
  | .middle => c.middle
  | .ring => c.ring
  | .pinky => c.pinky

/-- Field update by finger name. -/
def FingerCurls.set {α : Type} (c : FingerCurls α) : Finger → α → FingerCurls α
  | .thumb, v => { c with thumb := v }
  | .index, v => { c with index := v }
  | .middle, v => { c with middle := v }
  | .ring, v => { c with ring := v }
  | .pinky, v => { c with pinky := v }

/-- A three-axis rotation (source: THREE.Euler, used for wristRot). -/
structure Euler3 where
  x : JSNum
  y : JSNum
  z : JSNum
  deriving DecidableEq, Repr

/-- The all-zero rotation. -/
def Euler3.zero : Euler3 := ⟨some 0, some 0, some 0⟩

/-- One of the two pose records a hand owns (source: the shape of
`targetState` and `currentState` in class RobotHand). -/
structure PoseState where
  wristRot : Euler3
  fingerCurls : FingerCurls JSNum
  deriving DecidableEq, Repr

/-- The initial pose record (all rotations and curls 0). -/
def PoseState.init : PoseState :=
  { wristRot := Euler3.zero
    fingerCurls := ⟨some 0, some 0, some 0, some 0, some 0⟩ }

/-- The joint rotations the code writes onto the THREE.js skeleton:
the wrist rotation and, per finger, the rotation.x of the three
segments of that finger (source: RobotHand.applyToMesh together with
the three-segment chains built in buildHand). -/
structure MeshState where
  wristRot : Euler3
  fingerSegs : FingerCurls (List JSNum)
  deriving DecidableEq, Repr

/-- Initial mesh joint rotations (all zero). -/
def MeshState.init : MeshState :=
  { wristRot := Euler3.zero
    fingerSegs :=
      ⟨List.replicate 3 (some 0), List.replicate 3 (some 0),
       List.replicate 3 (some 0), List.replicate 3 (some 0),
       List.replicate 3 (some 0)⟩ }

/-- Source (RobotHand.ts line 6):
`function lerp(start, end, amt) { return (1 - amt) * start + amt * end; }`
on finite values. -/
def lerp (start e amt : ℚ) : ℚ :=
  (1 - amt) * start + amt * e

/-- The same helper on JavaScript numbers: any NaN operand makes the
result NaN (IEEE arithmetic propagates NaN through `*` and `+`). -/
def jsLerp (start e : JSNum) (amt : ℚ) : JSNum :=
  match start, e with
  | some s, some t => some (lerp s t amt)
  | _, _ => none

/-- One hand (source: class RobotHand).  The skeletal tree is reduced
to the joint rotations (`mesh`); `side` only mirrors geometry in the
source and drives no animation logic. -/
structure RobotHand where
  side : String
  targetState : PoseState
  currentState : PoseState
  animState : String
  animStartTime : ℚ
  mesh : MeshState
  deriving DecidableEq, Repr

/-- A freshly built hand (fields as initialised in class RobotHand). -/
def RobotHand.build (side : String) : RobotHand :=
  { side := side
    targetState := PoseState.init
    currentState := PoseState.init
    animState := "IDLE"
    animStartTime := 0
    mesh := MeshState.init }

namespace RobotHand

/-- Source: `setFace(finger, curl)` — writes one target finger curl. -/
def setFace (h : RobotHand) (finger : Finger) (curl : ℚ) : RobotHand :=
  { h with targetState :=
      { h.targetState with
          fingerCurls := h.targetState.fingerCurls.set finger (some curl) } }

/-- Source: `setWrist(x, y, z)` — writes the target wrist rotation. -/
def setWrist (h : RobotHand) (x y z : ℚ) : RobotHand :=
  { h with targetState :=
      { h.targetState with wristRot := ⟨some x, some y, some z⟩ } }

/-- Source: `poseHand(pose)` — tags the hand `POSE`, copies the five
curl values onto the targets, and sets the fixed wrist tilt. -/
def poseHand (h : RobotHand) (pose : FingerCurls ℚ) : RobotHand :=
  let h := { h with animState := "POSE" }
  let h := h.setFace .thumb pose.thumb
  let h := h.setFace .index pose.index
  let h := h.setFace .middle pose.middle
  let h := h.setFace .ring pose.ring
  let h := h.setFace .pinky pose.pinky
  h.setWrist (-0.2) 0 0

/-- Source: `triggerAnimation(type)` — sets the animation-state tag and
records the trigger time (`Date.now()`, passed here as `now`). -/
def triggerAnimation (h : RobotHand) (type : String) (now : ℚ) : RobotHand :=
  { h with animState := type, animStartTime := now }

end RobotHand

/-!
The per-tick target computation `updateLogic` only ever reads
`this.animState` and writes targets through `setFace` / `setWrist`.
We therefore express it as a transformation of the target `PoseState`,
keyed by the animation-state tag; `RobotHand.updateLogic` below wraps
it back onto the hand.  The helpers mirror the local helpers declared
at the top of the source updateLogic.
-/

namespace PoseState

/-- Target-level `setFace`. -/
def setFace (s : PoseState) (finger : Finger) (curl : ℚ) : PoseState :=
  { s with fingerCurls := s.fingerCurls.set finger (some curl) }

/-- Target-level `setWrist`. -/
def setWrist (s : PoseState) (x y z : ℚ) : PoseState :=
  { s with wristRot := ⟨some x, some y, some z⟩ }

/-- Source helper `flatHand`: every curl to 0. -/
def flatHand (s : PoseState) : PoseState :=
  ((((s.setFace .thumb 0).setFace .index 0).setFace .middle 0).setFace
      .ring 0).setFace .pinky 0

/-- Source helper `fist`: every curl to 1.5. -/
def fist (s : PoseState) : PoseState :=
  ((((s.setFace .thumb 1.5).setFace .index 1.5).setFace .middle
      1.5).setFace .ring 1.5).setFace .pinky 1.5

/-- Source helper `pointIndex`: index 0, the rest 1.5. -/
def pointIndex (s : PoseState) : PoseState :=
  (((( s.setFace .index 0).setFace .thumb 1.5).setFace .middle
      1.5).setFace .ring 1.5).setFace .pinky 1.5

/-- Source helper `thumbsUp`: thumb 0, the rest 1.5. -/
def thumbsUp (s : PoseState) : PoseState :=
  ((((s.setFace .thumb 0).setFace .index 1.5).setFace .middle
      1.5).setFace .ring 1.5).setFace .pinky 1.5

end PoseState

/-- A catalog gesture: a function of (Math.sin, Math.cos, elapsed time)
transforming the target pose.  The catalog entries below never see the
Math.random stream; the single case that uses Math.random (KEYBOARD,
source line 2159) is split out in `updateLogicTargets` so that this
type records the absence of randomness in every other case. -/
abbrev GestureFn : Type := (ℚ → ℚ) → (ℚ → ℚ) → ℚ → PoseState → PoseState

open PoseState in
/-- Source: the `IDLE` / `POSE` branch of updateLogic (lines 178-185):
gentle idle sway on the wrist and all five curls. -/
def idleSway (sin : ℚ → ℚ) (time : ℚ) (s : PoseState) : PoseState :=
  let sway := sin (time * 1.5) * 0.05
  let s := s.setWrist (sway * 0.5) 0 sway
  ((((s.setFace .thumb (0.1 + sin (time + 0) * 0.05)).setFace
      .index (0.1 + sin (time + 2) * 0.05)).setFace
      .middle (0.1 + sin (time + 2) * 0.05)).setFace
      .ring (0.1 + sin (time + 2) * 0.05)).setFace
      .pinky (0.1 + sin (time + 2) * 0.05)

open PoseState in
/-- Source: `case 'KEYBOARD'` (lines 2159-2164) — the single case that
reads `Math.random()`, once per non-thumb finger. -/
def keyboardTargets (sin : ℚ → ℚ) (rand : ℕ → ℚ) (time : ℚ)
    (s : PoseState) : PoseState :=
  let keyType := sin (time * 12) * 0.1
  let s := s.setWrist 0 0 keyType
  let s := s.setFace .thumb 0.5
  (((s.setFace .index (0.2 + rand 0 * 0.3)).setFace
      .middle (0.2 + rand 1 * 0.3)).setFace
      .ring (0.2 + rand 2 * 0.3)).setFace
      .pinky (0.2 + rand 3 * 0.3)

open PoseState in
/-- Source: the `default:` branch of updateLogic (lines 2408-2438) —
the deterministic procedural fallback for an unrecognised tag.  In
JavaScript, `word.charCodeAt(0)` of the empty string is NaN, all three
`===` comparisons are then false and the final else (thumbs motion)
runs; the empty-word case below reproduces that. -/
def defaultTargets (sin : ℚ → ℚ) (word : String) (time : ℚ)
    (s : PoseState) : PoseState :=
  let wordHash := word.length % 5
  let speed : ℚ := 4 + wordHash
  let amplitude : ℚ := 0.5
  let motion := sin (time * speed) * amplitude
  match word.data with
  | [] => (s.setWrist 0 motion (motion * 0.3)).thumbsUp
  | c :: _ =>
    let firstChar := c.toNat % 4
    if firstChar = 0 then (s.setWrist motion 0 (motion * 0.5)).flatHand
    else if firstChar = 1 then (s.setWrist 0 (motion * 0.5) motion).pointIndex
    else if firstChar = 2 then (s.setWrist (motion * 0.7) 0 0).fist
    else (s.setWrist 0 motion (motion * 0.3)).thumbsUp

/-!
The per-word gesture catalog: the long `switch (state)` dispatch of
`updateLogic` (source lines 188-2439, excluding the `KEYBOARD` case and
the `default` branch, which are `keyboardTargets` and `defaultTargets`
above).  Each `case 'W':` label becomes one `("W", fn)` entry; shared
(fall-through) bodies are duplicated per label.  The list is split into
several defs only to keep elaboration fast; `gestureCatalog` below is
their concatenation in source order.
-/

/-- Catalog entries, source lines 188-455 (greetings, pronouns,
questions, verbs, emotions, want/need/like). -/
def gestureCatalogA : List (String × GestureFn) := [
  ("HELLO", fun sin _cos time s =>
    let helloMove := sin (time * 5) * 0.4
    ((s.setWrist (-0.3 + helloMove) 0 (helloMove * 0.3)).flatHand)),
  ("GOODBYE", fun sin _cos time s =>
    let byeWave := sin (time * 8) * 0.5
    ((s.setWrist 0 0 byeWave).flatHand)),
  ("YES", fun sin _cos time s =>
    let yesNod := sin (time * 6) * 0.4
    ((s.setWrist yesNod 0 0).fist)),
  ("NO", fun sin _cos time s =>
    let noSnap := abs (sin (time * 8))
    (((((s.setWrist 0 0 (noSnap * 0.2)).setFace .thumb
        (noSnap * 0.5)).setFace .index (noSnap * 0.5)).setFace .middle
        (noSnap * 0.5)).setFace .ring 1.5).setFace .pinky 1.5),
  ("THANK", fun sin _cos time s =>
    let thankMove := sin (time * 4) * 0.5
    ((s.setWrist (thankMove - 0.2) 0 0).flatHand)),
  ("PLEASE", fun sin cos time s =>
    let pleaseCircleX := sin (time * 4) * 0.3
    let pleaseCircleY := cos (time * 4) * 0.3
    ((s.setWrist pleaseCircleX pleaseCircleY 0).flatHand)),
  ("SORRY", fun sin cos time s =>
    let sorryCircle := sin (time * 3) * 0.3
    let sorryCircle2 := cos (time * 3) * 0.2
    ((s.setWrist sorryCircle sorryCircle2 0).fist)),
  ("I", fun _sin _cos _time s => (s.setWrist 0.3 0 0).pointIndex),
  ("ME", fun _sin _cos _time s => (s.setWrist 0.3 0 0).pointIndex),
  ("YOU", fun _sin _cos _time s => (s.setWrist (-0.2) 0 0).pointIndex),
  ("MY", fun _sin _cos _time s => (s.setWrist 0.5 0 0).flatHand),
  ("HE", fun _sin _cos _time s => (s.setWrist 0 0.3 0).pointIndex),
  ("SHE", fun _sin _cos _time s => (s.setWrist 0 0.3 0).pointIndex),
  ("IT", fun _sin _cos _time s => (s.setWrist 0 0.3 0).pointIndex),
  ("WE", fun sin _cos time s =>
    let weMotion := sin (time * 3) * 0.3
    ((s.setWrist 0 weMotion 0).pointIndex)),
  ("THEY", fun sin _cos time s =>
    let theyMotion := sin (time * 3) * 0.4
    ((s.setWrist 0 theyMotion 0).pointIndex)),
  ("WHAT", fun sin _cos time s =>
    let whatShake := sin (time * 6) * 0.3
    ((s.setWrist 0 whatShake 0).flatHand)),
  ("WHERE", fun sin _cos time s =>
    let whereShake := sin (time * 5) * 0.4
    ((s.setWrist 0 0 whereShake).pointIndex)),
  ("WHEN", fun sin _cos time s =>
    let whenCircle := sin (time * 4)
    ((s.setWrist 0 (whenCircle * 0.2) 0).pointIndex)),
  ("WHO", fun sin _cos time s =>
    let whoCircle := sin (time * 5)
    (((((s.setWrist 0 0 (whoCircle * 0.2)).setFace .thumb 0.5).setFace
        .index 0.5).setFace .middle 1.5).setFace .ring 1.5).setFace
        .pinky 1.5),
  ("WHY", fun sin _cos time s =>
    let whyMotion := sin (time * 4) * 0.3
    (((((s.setWrist whyMotion 0 0).setFace .middle 0).setFace .thumb
        1.5).setFace .index 1.5).setFace .ring 1.5).setFace .pinky 1.5),
  ("HOW", fun sin _cos time s =>
    let howRotate := sin (time * 5) * 0.4
    ((s.setWrist howRotate 0 0).fist)),
  ("GO", fun sin _cos time s =>
    let goMotion := sin (time * 6) * 0.5
    ((s.setWrist 0 0 goMotion).pointIndex)),
  ("COME", fun sin _cos time s =>
    let comeMotion := sin (time * 6) * 0.5
    ((s.setWrist comeMotion 0 0).pointIndex)),
  ("EAT", fun sin _cos time s =>
    let eatMotion := abs (sin (time * 5))
    (((((s.setWrist (eatMotion * 0.3) 0 0).setFace .thumb 0.5).setFace
        .index 1.2).setFace .middle 1.2).setFace .ring 1.2).setFace
        .pinky 1.2),
  ("DRINK", fun sin _cos time s =>
    let drinkTilt := sin (time * 3) * 0.3
    (((((s.setWrist (drinkTilt - 0.2) 0 0).setFace .thumb 0.8).setFace
        .index 0.8).setFace .middle 0.8).setFace .ring 0.8).setFace
        .pinky 0.8),
  ("SLEEP", fun _sin _cos _time s => (s.setWrist 0.3 0 0).flatHand),
  ("WORK", fun sin _cos time s =>
    let workTap := abs (sin (time * 8))
    ((s.setWrist 0 0 (workTap * 0.3)).fist)),
  ("PLAY", fun sin _cos time s =>
    let playShake := sin (time * 8) * 0.4
    (((((s.setWrist 0 0 playShake).setFace .thumb 0).setFace .pinky
        0).setFace .index 1.5).setFace .middle 1.5).setFace .ring 1.5),
  ("LEARN", fun sin _cos time s =>
    let learnMotion := sin (time * 4)
    ((s.setWrist (learnMotion * 0.3) 0 0).flatHand)),
  ("KNOW", fun sin _cos time s =>
    let knowTap := abs (sin (time * 6))
    ((s.setWrist (knowTap * 0.2) 0 0).flatHand)),
  ("THINK", fun sin _cos time s =>
    let thinkCircle := sin (time * 3)
    ((s.setWrist (thinkCircle * 0.1) 0 0).pointIndex)),
  ("SEE", fun sin _cos time s =>
    let seeMotion := sin (time * 5) * 0.3
    (((((s.setWrist 0 0 seeMotion).setFace .index 0).setFace .middle
        0).setFace .thumb 1.5).setFace .ring 1.5).setFace .pinky 1.5),
  ("HEAR", fun sin _cos time s =>
    let hearPoint := abs (sin (time * 4))
    ((s.setWrist (hearPoint * 0.2) 0 0).pointIndex)),
  ("FEEL", fun sin _cos time s =>
    let feelRub := sin (time * 3)
    (((((s.setWrist (feelRub * 0.2) 0 0).setFace .middle 0).setFace
        .thumb 1.5).setFace .index 1.5).setFace .ring 1.5).setFace
        .pinky 1.5),
  ("UNDERSTAND", fun sin _cos time s =>
    let understandFlick := abs (sin (time * 6))
    ((s.setWrist 0 0 (understandFlick * 0.3)).pointIndex)),
  ("REMEMBER", fun sin _cos time s =>
    let rememberTap := abs (sin (time * 5))
    ((s.setWrist (rememberTap * 0.2) 0 0).thumbsUp)),
  ("FORGET", fun sin _cos time s =>
    let forgetWipe := sin (time * 4)
    ((s.setWrist 0 (forgetWipe * 0.3) 0).flatHand)),
  ("HAPPY", fun sin _cos time s =>
    let happyBounce := abs (sin (time * 6)) * 0.3
    ((s.setWrist happyBounce 0 0).flatHand)),
  ("SAD", fun _sin _cos _time s => (s.setWrist (-0.3) 0 0).flatHand),
  ("HUNGRY", fun sin _cos time s =>
    let hungryRub := sin (time * 4)
    (((((s.setWrist (hungryRub * 0.3) 0 0).setFace .thumb 0.5).setFace
        .index 0.8).setFace .middle 0.8).setFace .ring 0.8).setFace
        .pinky 0.8),
  ("THIRSTY", fun sin _cos time s =>
    let thirstyDrag := sin (time * 3)
    ((s.setWrist (thirstyDrag * 0.2) 0 0).pointIndex)),
  ("GOOD", fun sin _cos time s =>
    let goodMotion := sin (time * 4) * 0.3
    ((s.setWrist 0 0 goodMotion).flatHand)),
  ("BAD", fun sin _cos time s =>
    let badMotion := sin (time * 5) * 0.3
    ((s.setWrist 0 0 badMotion).flatHand)),
  ("WANT", fun sin _cos time s =>
    let wantPull := sin (time * 4) * 0.4
    (((((s.setWrist wantPull 0 0).setFace .thumb 0.6).setFace .index
        0.6).setFace .middle 0.6).setFace .ring 0.6).setFace .pinky 0.6),
  ("NEED", fun sin _cos time s =>
    let needBend := abs (sin (time * 6)) * 0.5
    (((((s.setWrist needBend 0 0).setFace .index 0.8).setFace .thumb
        1.5).setFace .middle 1.5).setFace .ring 1.5).setFace .pinky 1.5),
  ("LIKE", fun sin _cos time s =>
    let likePull := sin (time * 4) * 0.3
    (((((s.setWrist likePull 0 0).setFace .thumb 0.3).setFace .middle
        0.3).setFace .index 1.5).setFace .ring 1.5).setFace .pinky 1.5),
  ("LOVE", fun sin _cos time s =>
    let loveHug := sin (time * 2) * 0.2
    ((s.setWrist (0.3 + loveHug) 0 0).fist))]

/-- Catalog entries, source lines 456-704 (help, family, modifiers,
directions, modals, conjunctions, places, first drinks).  Note the
source quirk at lines 548-549: the first `case 'HOUSE': case 'SCHOOL':`
labels have no body and fall through to the `'BIG'` body; the second
`'HOUSE'` (line 649) and `'SCHOOL'` (line 656) labels are therefore
dead, which the first-match lookup below reproduces by keeping both
occurrences in source order. -/
def gestureCatalogB : List (String × GestureFn) := [
  ("HELP", fun sin _cos time s =>
    let helpLift := sin (time * 4) * 0.4
    (((s.setWrist helpLift 0 0).thumbsUp).thumbsUp)),
  ("MOTHER", fun sin _cos time s =>
    let motherTap := abs (sin (time * 6)) * 0.3
    (((((s.setWrist motherTap 0 0).setFace .thumb 0).setFace .index
        0).setFace .middle 0).setFace .ring 0).setFace .pinky 0),
  ("MOM", fun sin _cos time s =>
    let motherTap := abs (sin (time * 6)) * 0.3
    (((((s.setWrist motherTap 0 0).setFace .thumb 0).setFace .index
        0).setFace .middle 0).setFace .ring 0).setFace .pinky 0),
  ("FATHER", fun sin _cos time s =>
    let dadTap := abs (sin (time * 6)) * 0.3
    (((((s.setWrist (dadTap + 0.3) 0 0).setFace .thumb 0).setFace .index
        0).setFace .middle 0).setFace .ring 0).setFace .pinky 0),
  ("DAD", fun sin _cos time s =>
    let dadTap := abs (sin (time * 6)) * 0.3
    (((((s.setWrist (dadTap + 0.3) 0 0).setFace .thumb 0).setFace .index
        0).setFace .middle 0).setFace .ring 0).setFace .pinky 0),
  ("SISTER", fun sin _cos time s =>
    let sisTap := sin (time * 4) * 0.3
    ((s.setWrist sisTap 0 0).fist)),
  ("BROTHER", fun sin _cos time s =>
    let broTap := sin (time * 4) * 0.4
    (((((s.setWrist (broTap + 0.2) 0 0).setFace .thumb 0).setFace .index
        0).setFace .middle 1.5).setFace .ring 1.5).setFace .pinky 1.5),
  ("FAMILY", fun sin cos time s =>
    let famCircleX := sin (time * 3) * 0.4
    let famCircleY := cos (time * 3) * 0.3
    (((((s.setWrist famCircleX famCircleY 0).setFace .thumb 0.5).setFace
        .index 0.5).setFace .middle 0).setFace .ring 0).setFace .pinky 0),
  ("FRIEND", fun sin _cos time s =>
    let friendHook := sin (time * 4) * 0.4
    (((((s.setWrist 0 friendHook 0).setFace .index 0.7).setFace .thumb
        1.5).setFace .middle 1.5).setFace .ring 1.5).setFace .pinky 1.5),
  ("BABY", fun sin _cos time s =>
    let babyRock := sin (time * 3) * 0.4
    ((s.setWrist 0 babyRock 0).flatHand)),
  ("CHILD", fun sin _cos time s =>
    let childPat := abs (sin (time * 5)) * 0.3
    ((s.setWrist 0 0 childPat).flatHand)),
  ("KIDS", fun sin _cos time s =>
    let childPat := abs (sin (time * 5)) * 0.3
    ((s.setWrist 0 0 childPat).flatHand)),
  ("PERSON", fun sin _cos time s =>
    let personDown := sin (time * 3) * 0.3
    (((((s.setWrist personDown 0 0).setFace .thumb 0.5).setFace .index
        0.3).setFace .middle 0).setFace .ring 1.5).setFace .pinky 1.5),
  ("PEOPLE", fun sin _cos time s =>
    let peopleAlt := sin (time * 5) * 0.4
    (((((s.setWrist 0 peopleAlt 0).setFace .thumb 0.5).setFace .index
        0.3).setFace .middle 0).setFace .ring 1.5).setFace .pinky 1.5),
  ("HOUSE", fun sin _cos time s =>
    let bigSpread := sin (time * 3) * 0.3
    ((s.setWrist 0 0 bigSpread).flatHand)),
  ("SCHOOL", fun sin _cos time s =>
    let bigSpread := sin (time * 3) * 0.3
    ((s.setWrist 0 0 bigSpread).flatHand)),
  ("BIG", fun sin _cos time s =>
    let bigSpread := sin (time * 3) * 0.3
    ((s.setWrist 0 0 bigSpread).flatHand)),
  ("SMALL", fun sin _cos time s =>
    let smallClose := sin (time * 5) * 0.2
    (((((s.setWrist 0 0 smallClose).setFace .thumb 0.5).setFace .index
        0.5).setFace .middle 1.5).setFace .ring 1.5).setFace .pinky 1.5),
  ("MORE", fun sin _cos time s =>
    let moreMotion := sin (time * 5)
    (((((s.setWrist (moreMotion * 0.3) 0 0).setFace .thumb 0.5).setFace
        .index 0.5).setFace .middle 0.5).setFace .ring 0.5).setFace
        .pinky 0.5),
  ("DONE", fun sin _cos time s =>
    let doneShake := sin (time * 8) * 0.4
    ((s.setWrist 0 0 doneShake).flatHand)),
  ("FINISH", fun sin _cos time s =>
    let doneShake := sin (time * 8) * 0.4
    ((s.setWrist 0 0 doneShake).flatHand)),
  ("NOT", fun sin _cos time s =>
    let notFlick := sin (time * 6)
    ((s.setWrist 0 0 (notFlick * 0.4)).thumbsUp)),
  ("AGAIN", fun sin _cos time s =>
    let againBounce := sin (time * 6)
    ((s.setWrist (againBounce * 0.3) 0 0).flatHand)),
  ("ALWAYS", fun sin _cos time s =>
    let freqMotion := sin (time * 4) * 0.3
    ((s.setWrist 0 freqMotion 0).pointIndex)),
  ("NEVER", fun sin _cos time s =>
    let freqMotion := sin (time * 4) * 0.3
    ((s.setWrist 0 freqMotion 0).pointIndex)),
  ("SOMETIMES", fun sin _cos time s =>
    let freqMotion := sin (time * 4) * 0.3
    ((s.setWrist 0 freqMotion 0).pointIndex)),
  ("HERE", fun sin _cos time s =>
    let dirMotion := sin (time * 5) * 0.3
    ((s.setWrist 0 0 dirMotion).pointIndex)),
  ("THERE", fun sin _cos time s =>
    let dirMotion := sin (time * 5) * 0.3
    ((s.setWrist 0 0 dirMotion).pointIndex)),
  ("UP", fun sin _cos time s =>
    let dirMotion := sin (time * 5) * 0.3
    ((s.setWrist 0 0 dirMotion).pointIndex)),
  ("DOWN", fun sin _cos time s =>
    let dirMotion := sin (time * 5) * 0.3
    ((s.setWrist 0 0 dirMotion).pointIndex)),
  ("IN", fun sin _cos time s =>
    let dirMotion := sin (time * 5) * 0.3
    ((s.setWrist 0 0 dirMotion).pointIndex)),
  ("OUT", fun sin _cos time s =>
    let dirMotion := sin (time * 5) * 0.3
    ((s.setWrist 0 0 dirMotion).pointIndex)),
  ("CAN", fun sin _cos time s =>
    let modalMotion := sin (time * 6) * 0.3
    ((s.setWrist modalMotion 0 0).fist)),
  ("WILL", fun sin _cos time s =>
    let modalMotion := sin (time * 6) * 0.3
    ((s.setWrist modalMotion 0 0).fist)),
  ("MUST", fun sin _cos time s =>
    let modalMotion := sin (time * 6) * 0.3
    ((s.setWrist modalMotion 0 0).fist)),
  ("SHOULD", fun sin _cos time s =>
    let modalMotion := sin (time * 6) * 0.3
    ((s.setWrist modalMotion 0 0).fist)),
  ("AND", fun sin _cos time s =>
    let conjMotion := sin (time * 4) * 0.2
    ((s.setWrist 0 conjMotion 0).flatHand)),
  ("BUT", fun sin _cos time s =>
    let conjMotion := sin (time * 4) * 0.2
    ((s.setWrist 0 conjMotion 0).flatHand)),
  ("OR", fun sin _cos time s =>
    let conjMotion := sin (time * 4) * 0.2
    ((s.setWrist 0 conjMotion 0).flatHand)),
  ("IF", fun sin _cos time s =>
    let conjMotion := sin (time * 4) * 0.2
    ((s.setWrist 0 conjMotion 0).flatHand)),
  ("BECAUSE", fun sin _cos time s =>
    let conjMotion := sin (time * 4) * 0.2
    ((s.setWrist 0 conjMotion 0).flatHand)),
  ("NAME", fun sin _cos time s =>
    let nameTap := abs (sin (time * 10))
    (((((s.setWrist 0 0 (nameTap * 0.3)).setFace .index 0).setFace
        .middle 0).setFace .thumb 1.5).setFace .ring 1.5).setFace
        .pinky 1.5),
  ("PARK", fun sin _cos time s =>
    let parkSpread := sin (time * 4) * 0.5
    ((s.setWrist 0 parkSpread 0).flatHand)),
  ("HOUSE", fun sin _cos time s =>
    let houseAngle := sin (time * 3) * 0.2
    ((s.setWrist (0.4 + houseAngle) 0 0.3).flatHand)),
  ("HOME", fun sin _cos time s =>
    let houseAngle := sin (time * 3) * 0.2
    ((s.setWrist (0.4 + houseAngle) 0 0.3).flatHand)),
  ("SCHOOL", fun sin _cos time s =>
    let schoolClap := abs (sin (time * 8))
    ((s.setWrist (schoolClap * 0.4) 0 0).flatHand)),
  ("STORE", fun sin _cos time s =>
    let storeRub := sin (time * 6) * 0.4
    (((((s.setWrist storeRub 0 0).setFace .thumb 0.5).setFace .index
        0.5).setFace .middle 1.5).setFace .ring 1.5).setFace .pinky 1.5),
  ("SHOP", fun sin _cos time s =>
    let storeRub := sin (time * 6) * 0.4
    (((((s.setWrist storeRub 0 0).setFace .thumb 0.5).setFace .index
        0.5).setFace .middle 1.5).setFace .ring 1.5).setFace .pinky 1.5),
  ("HOSPITAL", fun sin _cos time s =>
    let hospCross := sin (time * 4) * 0.3
    (((((s.setWrist hospCross 0 hospCross).setFace .index 0).setFace
        .middle 0).setFace .thumb 1.5).setFace .ring 1.5).setFace
        .pinky 1.5),
  ("CHURCH", fun sin _cos time s =>
    let churchPoint := sin (time * 2) * 0.2
    ((s.setWrist (0.5 + churchPoint) 0 0).pointIndex)),
  ("BEACH", fun sin _cos time s =>
    let beachWave := sin (time * 3) * 0.5
    ((s.setWrist beachWave 0 (beachWave * 0.5)).flatHand)),
  ("COFFEE", fun sin _cos time s =>
    let coffeeGrind := sin (time * 5) * 0.4
    ((s.setWrist 0 coffeeGrind 0).fist)),
  ("MILK", fun sin _cos time s =>
    let milkSqueeze := abs (sin (time * 6))
    (((((s.setWrist 0 0 (milkSqueeze * 0.3)).setFace .thumb
        (0.5 + milkSqueeze * 0.3)).setFace .index
        (0.5 + milkSqueeze * 0.3)).setFace .middle
        (0.5 + milkSqueeze * 0.3)).setFace .ring
        (0.5 + milkSqueeze * 0.3)).setFace .pinky
        (0.5 + milkSqueeze * 0.3))]

/-- Catalog entries, source lines 705-963 (foods, objects, action
verbs).  `DANCE`, `FIX` and `CREATE` update only some finger targets
and leave the rest unchanged.  `DOOR` here (line 749) shadows the later
`DOOR` case at line 2213. -/
def gestureCatalogC : List (String × GestureFn) := [
  ("PIZZA", fun sin _cos time s =>
    let pizzaZ := sin (time * 8) * 0.4
    ((s.setWrist 0 pizzaZ pizzaZ).pointIndex)),
  ("COOKIE", fun sin _cos time s =>
    let cookieCut := sin (time * 5) * 0.4
    (((((s.setWrist 0 0 cookieCut).setFace .thumb 0.8).setFace .index
        0.8).setFace .middle 0.8).setFace .ring 0.8).setFace .pinky 0.8),
  ("CAR", fun sin _cos time s =>
    let carSteer := sin (time * 4) * 0.5
    ((s.setWrist 0 carSteer 0).fist)),
  ("PHONE", fun sin _cos time s =>
    let phoneHold := sin (time * 3) * 0.2
    (((((s.setWrist (phoneHold + 0.3) 0 0).setFace .thumb 0).setFace
        .pinky 0).setFace .index 1.5).setFace .middle 1.5).setFace
        .ring 1.5),
  ("TELEPHONE", fun sin _cos time s =>
    let phoneHold := sin (time * 3) * 0.2
    (((((s.setWrist (phoneHold + 0.3) 0 0).setFace .thumb 0).setFace
        .pinky 0).setFace .index 1.5).setFace .middle 1.5).setFace
        .ring 1.5),
  ("COMPUTER", fun sin _cos time s =>
    let compType := abs (sin (time * 10))
    (((((s.setWrist 0 0 (compType * 0.3)).setFace .index
        (0.2 + compType * 0.3)).setFace .middle
        (0.2 + compType * 0.3)).setFace .thumb 1.2).setFace .ring
        1.2).setFace .pinky 1.2),
  ("BOOK", fun sin _cos time s =>
    let bookOpen := sin (time * 4) * 0.5
    ((s.setWrist 0 bookOpen 0).flatHand)),
  ("DOOR", fun sin _cos time s =>
    let doorSwing := sin (time * 3) * 0.6
    ((s.setWrist 0 doorSwing 0).flatHand)),
  ("CHAIR", fun sin _cos time s =>
    let chairSit := sin (time * 4) * 0.3
    (((((s.setWrist chairSit 0 0).setFace .index 0.5).setFace .middle
        0.5).setFace .thumb 1.5).setFace .ring 1.5).setFace .pinky 1.5),
  ("TABLE", fun sin _cos time s =>
    let tableSurface := sin (time * 3) * 0.3
    ((s.setWrist tableSurface 0 0).flatHand)),
  ("BED", fun sin _cos time s =>
    let bedSleep := sin (time * 2) * 0.3
    ((s.setWrist (bedSleep + 0.3) 0 0).flatHand)),
  ("MONEY", fun sin _cos time s =>
    let moneyRub := sin (time * 8) * 0.3
    (((((s.setWrist moneyRub 0 0).setFace .thumb 0.3).setFace .index
        0.3).setFace .middle 0.3).setFace .ring 1.5).setFace .pinky 1.5),
  ("BOWL", fun sin _cos time s =>
    let bowlCurve := sin (time * 3) * 0.2
    (((((s.setWrist bowlCurve 0 0.3).setFace .thumb 0.5).setFace .index
        0.6).setFace .middle 0.6).setFace .ring 0.6).setFace .pinky 0.6),
  ("RUN", fun sin _cos time s =>
    let runMotion := sin (time * 10) * 0.6
    ((s.setWrist (runMotion * 0.3) 0 runMotion).pointIndex)),
  ("WALK", fun sin _cos time s =>
    let walkStep := sin (time * 6) * 0.4
    ((s.setWrist (walkStep * 0.3) 0 walkStep).flatHand)),
  ("JUMP", fun sin _cos time s =>
    let jumpUp := abs (sin (time * 6)) * 0.6
    ((s.setWrist (jumpUp * 0.5) 0 0).flatHand)),
  ("SWIM", fun sin _cos time s =>
    let swimStroke := sin (time * 4) * 0.6
    ((s.setWrist swimStroke 0 0).flatHand)),
  ("FLY", fun sin _cos time s =>
    let flyFlap := sin (time * 5) * 0.5
    ((s.setWrist flyFlap 0 (flyFlap * 0.3)).flatHand)),
  ("DANCE", fun sin _cos time s =>
    let danceMove := sin (time * 7) * 0.5
    ((s.setWrist danceMove (danceMove * 0.5) 0).setFace .index
        0.5).setFace .middle 0.5),
  ("PUSH", fun sin _cos time s =>
    let pushOut := sin (time * 5) * 0.5
    ((s.setWrist 0 0 pushOut).flatHand)),
  ("PULL", fun sin _cos time s =>
    let pullIn := sin (time * 5) * (-0.5)
    ((s.setWrist 0 0 pullIn).fist)),
  ("THROW", fun sin _cos time s =>
    let throwOut := sin (time * 8) * 0.6
    ((s.setWrist 0 (throwOut * 0.5) throwOut).flatHand)),
  ("CATCH", fun sin _cos time s =>
    let catchIn := abs (sin (time * 6)) * 0.5
    ((s.setWrist 0 0 catchIn).fist)),
  ("HIT", fun sin _cos time s =>
    let hitStrike := abs (sin (time * 10)) * 0.6
    ((s.setWrist hitStrike 0 hitStrike).fist)),
  ("KICK", fun sin _cos time s =>
    let kickLeg := sin (time * 7) * 0.5
    ((s.setWrist kickLeg 0 0).flatHand)),
  ("CLIMB", fun sin _cos time s =>
    let climbUp := sin (time * 5) * 0.5
    ((s.setWrist 0 climbUp 0).fist)),
  ("FALL", fun sin _cos time s =>
    let fallDown := sin (time * 6) * (-0.5)
    ((s.setWrist 0 fallDown 0).flatHand)),
  ("CARRY", fun sin _cos time s =>
    let carryHold := sin (time * 4) * 0.3
    ((s.setWrist carryHold 0 0).flatHand)),
  ("LIFT", fun sin _cos time s =>
    let liftUp := sin (time * 4) * 0.5
    ((s.setWrist 0 liftUp 0).flatHand)),
  ("DROP", fun sin _cos time s =>
    let dropDown := sin (time * 8) * (-0.6)
    ((s.setWrist 0 dropDown 0).flatHand)),
  ("MOVE", fun sin _cos time s =>
    let moveSide := sin (time * 4) * 0.4
    ((s.setWrist moveSide 0 0).flatHand)),
  ("TURN", fun sin _cos time s =>
    let turnRot := sin (time * 3) * 0.5
    ((s.setWrist turnRot (turnRot * 0.5) 0).pointIndex)),
  ("SPIN", fun sin _cos time s =>
    let spinRot := sin (time * 8)
    ((s.setWrist 0 (spinRot * 0.5) 0).pointIndex)),
  ("ROLL", fun sin _cos time s =>
    let rollRot := sin (time * 5)
    ((s.setWrist (rollRot * 0.3) (rollRot * 0.3) 0).fist)),
  ("SLIDE", fun sin _cos time s =>
    let slideSmooth := sin (time * 3) * 0.6
    ((s.setWrist slideSmooth 0 0).flatHand)),
  ("SHAKE", fun sin _cos time s =>
    let shakeVigorous := sin (time * 12) * 0.3
    ((s.setWrist shakeVigorous 0 0).fist)),
  ("WAVE", fun sin _cos time s =>
    let waveHand := sin (time * 6) * 0.5
    ((s.setWrist waveHand 0 0).flatHand)),
  ("POINT", fun sin _cos time s =>
    let pointDir := sin (time * 4) * 0.4
    ((s.setWrist 0 0 pointDir).pointIndex)),
  ("GRAB", fun sin _cos time s =>
    let grabClose := abs (sin (time * 5))
    ((s.setWrist 0 0 (grabClose * 0.2)).fist)),
  ("HOLD", fun _sin _cos _time s => (s.setWrist 0 0.2 0).fist),
  ("RELEASE", fun sin _cos time s =>
    let releaseOpen := sin (time * 5)
    ((s.setWrist 0 0 (releaseOpen * 0.2)).flatHand)),
  ("BREAK", fun sin _cos time s =>
    let breakSnap := sin (time * 8) * 0.4
    ((s.setWrist breakSnap 0 0).fist)),
  ("FIX", fun sin _cos time s =>
    let fixTap := abs (sin (time * 8)) * 0.3
    (((s.setWrist fixTap 0 0).setFace .index 0.5).setFace .middle 0.5)),
  ("BUILD", fun sin _cos time s =>
    let buildStack := sin (time * 5) * 0.4
    ((s.setWrist 0 buildStack 0).flatHand)),
  ("CREATE", fun sin _cos time s =>
    let createFlow := sin (time * 3) * 0.4
    ((((s.setWrist createFlow (createFlow * 0.2) 0).setFace .index
        0.3).setFace .middle 0.3).setFace .ring 0.3).setFace .pinky 0.3),
  ("DESTROY", fun sin _cos time s =>
    let destroyCrush := sin (time * 5) * 0.5
    ((s.setWrist 0 0 destroyCrush).fist))]

/-- Catalog entries, source lines 964-1221 (household verbs,
communication verbs). -/
def gestureCatalogD : List (String × GestureFn) := [
  ("OPEN", fun sin _cos time s =>
    let openHands := sin (time * 4) * 0.6
    ((s.setWrist openHands 0 0).flatHand)),
  ("CLOSE", fun sin _cos time s =>
    let closeHands := sin (time * 4) * (-0.6)
    ((s.setWrist closeHands 0 0).flatHand)),
  ("CUT", fun sin _cos time s =>
    let cutScissor := sin (time * 8) * 0.3
    (((((s.setWrist 0 cutScissor 0).setFace .index 0).setFace .middle
        0).setFace .ring 1.5).setFace .pinky 1.5).setFace .thumb 1.5),
  ("POUR", fun sin _cos time s =>
    let pourTilt := sin (time * 4) * 0.5
    (((((s.setWrist pourTilt 0 0).setFace .thumb 0.5).setFace .index
        0.5).setFace .middle 0.5).setFace .ring 0.5).setFace .pinky 0.5),
  ("MIX", fun sin _cos time s =>
    let mixCircle := sin (time * 6) * 0.3
    (((((s.setWrist mixCircle mixCircle 0).setFace .thumb 0.5).setFace
        .index 0.5).setFace .middle 0.5).setFace .ring 0.5).setFace
        .pinky 0.5),
  ("STIR", fun sin _cos time s =>
    let stirCircle := sin (time * 7) * 0.2
    ((s.setWrist stirCircle stirCircle 0).fist)),
  ("COOK", fun sin _cos time s =>
    let cookFlip := sin (time * 5) * 0.4
    ((s.setWrist 0 cookFlip 0).flatHand)),
  ("BAKE", fun sin _cos time s =>
    let bakeSlide := sin (time * 3) * 0.5
    ((s.setWrist 0 0 bakeSlide).flatHand)),
  ("FRY", fun sin _cos time s =>
    let frySizzle := sin (time * 10) * 0.1
    ((s.setWrist frySizzle 0 0).flatHand)),
  ("BOIL", fun sin _cos time s =>
    let boilBubble := sin (time * 8) * 0.2
    (((((s.setWrist 0 boilBubble 0).setFace .thumb 0.5).setFace .index
        (0.2 + sin (time * 10) * 0.1)).setFace .middle
        (0.2 + sin (time * 10) * 0.1)).setFace .ring
        (0.2 + sin (time * 10) * 0.1)).setFace .pinky
        (0.2 + sin (time * 10) * 0.1)),
  ("WASH", fun sin _cos time s =>
    let washRub := sin (time * 6) * 0.3
    ((s.setWrist 0 0 washRub).fist)),
  ("CLEAN", fun sin _cos time s =>
    let cleanWipe := sin (time * 4) * 0.6
    ((s.setWrist cleanWipe 0 0).flatHand)),
  ("WIPE", fun sin _cos time s =>
    let wipeSide := sin (time * 5) * 0.5
    ((s.setWrist wipeSide 0 0).flatHand)),
  ("SCRUB", fun sin _cos time s =>
    let scrubHard := sin (time * 8) * 0.3
    ((s.setWrist scrubHard scrubHard 0).fist)),
  ("FOLD", fun sin _cos time s =>
    let foldOver := sin (time * 3) * 0.4
    ((s.setWrist foldOver 0 0).flatHand)),
  ("HANG", fun sin _cos time s =>
    let hangHook := sin (time * 4) * 0.2
    (((((s.setWrist 0 hangHook 0).setFace .index 0.8).setFace .thumb
        1.5).setFace .middle 1.5).setFace .ring 1.5).setFace .pinky 1.5),
  ("PACK", fun sin _cos time s =>
    let packStuff := sin (time * 5) * 0.3
    ((((((s.setWrist 0 0 packStuff).flatHand).setFace .thumb
        1.0).setFace .index 1.0).setFace .middle 1.0).setFace .ring
        1.0).setFace .pinky 1.0),
  ("UNPACK", fun sin _cos time s =>
    let unpackOut := sin (time * 5) * (-0.3)
    ((s.setWrist 0 0 unpackOut).flatHand)),
  ("WRAP", fun sin _cos time s =>
    let wrapAround := sin (time * 4) * 0.3
    ((s.setWrist wrapAround 0 0).flatHand)),
  ("UNWRAP", fun sin _cos time s =>
    let unwrapOpen := sin (time * 4) * (-0.3)
    ((s.setWrist unwrapOpen 0 0).flatHand)),
  ("TIE", fun sin _cos time s =>
    let tieKnot := sin (time * 5) * 0.2
    (((((s.setWrist tieKnot 0 0).setFace .thumb 0.5).setFace .index
        1.5).setFace .middle 1.5).setFace .ring 1.5).setFace .pinky 1.5),
  ("UNTIE", fun sin _cos time s =>
    let untiePull := sin (time * 5) * (-0.2)
    (((((s.setWrist untiePull 0 0).setFace .thumb 0.5).setFace .index
        1.5).setFace .middle 1.5).setFace .ring 1.5).setFace .pinky 1.5),
  ("TALK", fun sin _cos time s =>
    let talkTap := abs (sin (time * 8)) * 0.2
    ((((s.setWrist talkTap 0 0).pointIndex).setFace .middle 0).setFace
        .ring 0).setFace .pinky 0),
  ("SPEAK", fun sin _cos time s =>
    let speakOut := sin (time * 5) * 0.3
    ((s.setWrist speakOut 0 0).flatHand)),
  ("SAY", fun sin _cos time s =>
    let sayChin := sin (time * 4) * 0.2
    ((s.setWrist sayChin 0 0).pointIndex)),
  ("TELL", fun sin _cos time s =>
    let tellOut := sin (time * 4) * 0.4
    ((s.setWrist 0 0 tellOut).pointIndex)),
  ("ASK", fun sin _cos time s =>
    let askPray := sin (time * 3) * 0.3
    ((s.setWrist 0 askPray 0).flatHand)),
  ("ANSWER", fun sin _cos time s =>
    let answerOut := sin (time * 4) * 0.4
    ((s.setWrist answerOut 0 0).pointIndex)),
  ("CALL", fun sin _cos time s =>
    let callPhone := sin (time * 3) * 0.2
    (((((s.setWrist (callPhone + 0.3) 0 0).setFace .thumb 0).setFace
        .pinky 0).setFace .index 1.5).setFace .middle 1.5).setFace
        .ring 1.5),
  ("SHOUT", fun sin _cos time s =>
    let shoutWide := sin (time * 5) * 0.5
    (((((s.setWrist shoutWide 0 (shoutWide * 0.5)).setFace .thumb
        0.5).setFace .index 0.5).setFace .middle 0.5).setFace .ring
        0.5).setFace .pinky 0.5),
  ("WHISPER", fun sin _cos time s =>
    let whisperCover := sin (time * 2) * 0.1
    ((s.setWrist (whisperCover + 0.2) 0 0.3).flatHand)),
  ("SING", fun sin _cos time s =>
    let singFlow := sin (time * 4) * 0.4
    ((s.setWrist singFlow 0 0).flatHand)),
  ("READ", fun sin _cos time s =>
    let readScan := sin (time * 5) * 0.3
    (((((s.setWrist 0 readScan 0).setFace .index 0).setFace .middle
        0).setFace .thumb 1.5).setFace .ring 1.5).setFace .pinky 1.5),
  ("WRITE", fun sin _cos time s =>
    let writeScribble := sin (time * 10) * 0.1
    (((((s.setWrist writeScribble writeScribble 0).setFace .thumb
        0).setFace .index 0).setFace .middle 1.5).setFace .ring
        1.5).setFace .pinky 1.5),
  ("DRAW", fun sin _cos time s =>
    let drawLine := sin (time * 4) * 0.3
    (((((s.setWrist drawLine drawLine 0).setFace .pinky 0).setFace
        .thumb 1.5).setFace .index 1.5).setFace .middle 1.5).setFace
        .ring 1.5),
  ("SIGN", fun sin _cos time s =>
    let signCircle := sin (time * 8) * 0.3
    ((s.setWrist signCircle signCircle 0).pointIndex)),
  ("COMMUNICATE", fun sin _cos time s =>
    let commBackForth := sin (time * 6) * 0.4
    (((((s.setWrist 0 0 commBackForth).setFace .thumb 0.5).setFace
        .index 0.5).setFace .middle 0.5).setFace .ring 0.5).setFace
        .pinky 0.5),
  ("EXPLAIN", fun sin _cos time s =>
    let explainPull := sin (time * 5) * 0.3
    (((((s.setWrist 0 0 explainPull).setFace .thumb 1.0).setFace .index
        1.0).setFace .middle 0).setFace .ring 0).setFace .pinky 0),
  ("DESCRIBE", fun sin _cos time s =>
    let descPull := sin (time * 5) * 0.3
    (((((s.setWrist 0 0 descPull).setFace .thumb 1.0).setFace .index
        1.0).setFace .middle 0).setFace .ring 0).setFace .pinky 0),
  ("DISCUSS", fun sin _cos time s =>
    let discussTap := abs (sin (time * 6)) * 0.2
    ((s.setWrist discussTap 0 0).pointIndex)),
  ("ARGUE", fun sin _cos time s =>
    let arguePoint := sin (time * 8) * 0.4
    ((s.setWrist 0 arguePoint 0).pointIndex)),
  ("AGREE", fun sin _cos time s =>
    let agreeNod := sin (time * 4) * 0.3
    (((((s.setWrist agreeNod 0 0).setFace .thumb 0).setFace .pinky
        0).setFace .index 1.5).setFace .middle 1.5).setFace .ring 1.5),
  ("DISAGREE", fun sin _cos time s =>
    let disagreeShake := sin (time * 6) * 0.3
    ((s.setWrist (-0.2) disagreeShake 0).pointIndex)),
  ("PROMISE", fun sin _cos time s =>
    let promiseSeal := sin (time * 3) * 0.2
    ((s.setWrist 0 0 promiseSeal).pointIndex)),
  ("WARN", fun sin _cos time s =>
    let warnTap := abs (sin (time * 6)) * 0.2
    ((s.setWrist 0 0 warnTap).flatHand))]

/-- Catalog entries, source lines 1222-1464 (more communication verbs,
mental verbs).  `THINK`, `KNOW`, `UNDERSTAND`, `BELIEVE` aside,
several labels here (`THINK`, `KNOW`, `UNDERSTAND`, `REMEMBER`,
`FORGET`, `LEARN`) repeat labels of gestureCatalogA and are therefore
dead code, shadowed by the earlier entries. -/
def gestureCatalogE : List (String × GestureFn) := [
  ("ADVISE", fun sin _cos time s =>
    let adviseGive := sin (time * 4) * 0.3
    (((((s.setWrist 0 0 adviseGive).setFace .thumb 0.8).setFace .index
        0.8).setFace .middle 0.8).setFace .ring 0.8).setFace .pinky 0.8),
  ("SUGGEST", fun sin _cos time s =>
    let suggestUp := sin (time * 4) * 0.3
    (((((s.setWrist 0 suggestUp 0).setFace .index 0).setFace .middle
        0).setFace .thumb 1.5).setFace .ring 1.5).setFace .pinky 1.5),
  ("REQUEST", fun sin _cos time s =>
    let reqPull := sin (time * 4) * (-0.2)
    ((s.setWrist reqPull 0 0).flatHand)),
  ("DEMAND", fun sin _cos time s =>
    let demandPoint := sin (time * 4) * 0.3
    ((s.setWrist 0 demandPoint 0).pointIndex)),
  ("ORDER", fun sin _cos time s =>
    let orderPoint := sin (time * 4) * 0.4
    ((s.setWrist orderPoint 0 0).pointIndex)),
  ("INVITE", fun sin _cos time s =>
    let inviteSweep := sin (time * 4) * (-0.3)
    ((s.setWrist 0 0 inviteSweep).flatHand)),
  ("GREET", fun sin _cos time s =>
    let greetWave := sin (time * 5) * 0.4
    ((s.setWrist greetWave 0 0).flatHand)),
  ("INTRODUCE", fun sin _cos time s =>
    let introSweep := sin (time * 4) * 0.3
    ((s.setWrist introSweep 0 0).flatHand)),
  ("APOLOGIZE", fun sin _cos time s =>
    let apologyRub := sin (time * 3) * 0.2
    ((s.setWrist apologyRub 0 0).fist)),
  ("COMPLAIN", fun sin _cos time s =>
    let complainTap := abs (sin (time * 6)) * 0.2
    (((((s.setWrist complainTap 0 0).setFace .thumb 0.5).setFace .index
        0.5).setFace .middle 0.5).setFace .ring 0.5).setFace .pinky 0.5),
  ("PRAISE", fun sin _cos time s =>
    let praiseClap := abs (sin (time * 8)) * 0.3
    ((s.setWrist 0 praiseClap 0).flatHand)),
  ("CRITICIZE", fun sin _cos time s =>
    let critSlash := sin (time * 5) * 0.3
    ((s.setWrist critSlash (-critSlash) 0).pointIndex)),
  ("THINK", fun sin _cos time s =>
    let thinkTap := sin (time * 4) * 0.2
    ((s.setWrist (thinkTap + 0.3) 0 0).pointIndex)),
  ("KNOW", fun sin _cos time s =>
    let knowingTap := sin (time * 4) * 0.2
    ((s.setWrist (knowingTap + 0.3) 0 0).flatHand)),
  ("UNDERSTAND", fun sin _cos time s =>
    let underFlick := abs (sin (time * 6)) * 0.3
    ((s.setWrist (underFlick + 0.3) 0 0).pointIndex)),
  ("BELIEVE", fun sin _cos time s =>
    let believeClasp := sin (time * 3) * 0.3
    ((s.setWrist believeClasp 0 0).flatHand)),
  ("REMEMBER", fun sin _cos time s =>
    let rememberThumb := sin (time * 2) * 0.2
    (((((s.setWrist (rememberThumb + 0.3) 0 0).setFace .thumb 0).setFace
        .index 1.5).setFace .middle 1.5).setFace .ring 1.5).setFace
        .pinky 1.5),
  ("FORGET", fun sin _cos time s =>
    let forgetSwipe := sin (time * 5) * 0.3
    ((s.setWrist (forgetSwipe + 0.3) 0 0).flatHand)),
  ("LEARN", fun sin _cos time s =>
    let learnAbsorb := sin (time * 4) * 0.2
    ((s.setWrist (learnAbsorb + 0.2) 0 0).flatHand)),
  ("TEACH", fun sin _cos time s =>
    let teachOut := sin (time * 4) * 0.3
    (((((s.setWrist (teachOut + 0.3) 0 0).setFace .thumb 1.0).setFace
        .index 1.0).setFace .middle 1.0).setFace .ring 1.0).setFace
        .pinky 1.0),
  ("DECIDE", fun sin _cos time s =>
    let decideDown := sin (time * 4) * 0.4
    (((((s.setWrist 0 decideDown 0).setFace .thumb 0.5).setFace .index
        0.5).setFace .middle 0).setFace .ring 0).setFace .pinky 0),
  ("CHOOSE", fun sin _cos time s =>
    let choosePick := sin (time * 3) * 0.3
    (((((s.setWrist 0 0 choosePick).setFace .thumb 0.8).setFace .index
        0.8).setFace .middle 1.5).setFace .ring 1.5).setFace .pinky 1.5),
  ("IMAGINE", fun sin _cos time s =>
    let imagineSpiral := sin (time * 5) * 0.2
    (((((s.setWrist (imagineSpiral + 0.3) imagineSpiral 0).setFace
        .pinky 0).setFace .thumb 1.5).setFace .index 1.5).setFace
        .middle 1.5).setFace .ring 1.5),
  ("DREAM", fun sin _cos time s =>
    let dreamSquig := sin (time * 4) * 0.3
    ((s.setWrist (dreamSquig + 0.3) 0 0).pointIndex)),
  ("WONDER", fun sin _cos time s =>
    let wonderCircle := sin (time * 3) * 0.2
    ((s.setWrist (wonderCircle + 0.3) 0 0).pointIndex)),
  ("GUESS", fun sin _cos time s =>
    let guessSwipe := sin (time * 5) * 0.3
    (((((s.setWrist (guessSwipe + 0.3) 0 0).setFace .thumb 0.5).setFace
        .index 0.5).setFace .middle 0.5).setFace .ring 0.5).setFace
        .pinky 0.5),
  ("DOUBT", fun sin _cos time s =>
    let doubtShake := sin (time * 6) * 0.2
    (((((s.setWrist 0 doubtShake 0).setFace .index 0).setFace .middle
        0).setFace .thumb 1.5).setFace .ring 1.5).setFace .pinky 1.5),
  ("TRUST", fun sin _cos time s =>
    let trustHold := sin (time * 3) * 0.2
    ((s.setWrist 0 0 trustHold).fist)),
  ("HOPE", fun sin _cos time s =>
    let hopeCross := sin (time * 3) * 0.2
    (((((s.setWrist (hopeCross + 0.2) 0 0).setFace .index 0).setFace
        .middle 0).setFace .thumb 1.5).setFace .ring 1.5).setFace
        .pinky 1.5),
  ("WISH", fun sin _cos time s =>
    let wishDown := sin (time * 3) * 0.3
    (((((s.setWrist wishDown 0 0).setFace .thumb 0.5).setFace .index
        0.5).setFace .middle 0.5).setFace .ring 0.5).setFace .pinky 0.5),
  ("EXPECT", fun sin _cos time s =>
    let expectFlick := sin (time * 5) * 0.2
    ((s.setWrist (expectFlick + 0.2) 0 0).pointIndex)),
  ("PLAN", fun sin _cos time s =>
    let planSweep := sin (time * 4) * 0.4
    ((s.setWrist 0 planSweep 0).flatHand)),
  ("PREPARE", fun sin _cos time s =>
    let prepShake := sin (time * 6) * 0.2
    (((((s.setWrist 0 prepShake 0).setFace .thumb 0.5).setFace .index
        1.5).setFace .middle 1.5).setFace .ring 1.5).setFace .pinky 1.5),
  ("CONSIDER", fun sin _cos time s =>
    let considerCircle := sin (time * 3) * 0.2
    (((((s.setWrist (considerCircle + 0.2) 0 0).setFace .thumb
        1.0).setFace .index 1.0).setFace .middle 1.0).setFace .ring
        1.0).setFace .pinky 1.0),
  ("REALIZE", fun sin _cos time s =>
    let realTap := abs (sin (time * 8)) * 0.2
    ((s.setWrist (realTap + 0.2) 0 0).pointIndex)),
  ("RECOGNIZE", fun sin _cos time s =>
    let recPoint := sin (time * 4) * 0.3
    ((s.setWrist (recPoint + 0.2) 0 0).pointIndex)),
  ("NOTICE", fun sin _cos time s =>
    let noticePoint := sin (time * 4) * 0.3
    (((((s.setWrist 0 0 noticePoint).setFace .index 0.7).setFace .thumb
        1.5).setFace .middle 1.5).setFace .ring 1.5).setFace .pinky 1.5),
  ("FOCUS", fun sin _cos time s =>
    let focusNarrow := sin (time * 4) * 0.3
    ((s.setWrist (focusNarrow + 0.2) 0 0).flatHand)),
  ("CONCENTRATE", fun sin _cos time s =>
    let concCircle := sin (time * 2) * 0.1
    ((s.setWrist (concCircle + 0.2) 0 0).fist)),
  ("ANALYZE", fun sin _cos time s =>
    let analyzeV := sin (time * 4) * 0.3
    (((((s.setWrist 0 analyzeV 0).setFace .index 0).setFace .middle
        0).setFace .thumb 1.5).setFace .ring 1.5).setFace .pinky 1.5),
  ("COMPARE", fun sin _cos time s =>
    let compBalance := sin (time * 3) * 0.3
    ((s.setWrist 0 compBalance 0).flatHand)),
  ("JUDGE", fun sin _cos time s =>
    let judgeAlt := sin (time * 4) * 0.3
    (((((s.setWrist 0 judgeAlt 0).setFace .thumb 0.5).setFace .index
        0.5).setFace .middle 0).setFace .ring 0).setFace .pinky 0),
  ("EVALUATE", fun sin _cos time s =>
    let evalCircle := sin (time * 3) * 0.3
    (((((s.setWrist 0 evalCircle 0).setFace .thumb 1.5).setFace .index
        1.5).setFace .middle 1.5).setFace .ring 1.5).setFace .pinky 1.5)]

/-- Catalog entries, source lines 1467-1700 (perception verbs, state
verbs).  `SEE`, `HEAR` and `FEEL` repeat earlier labels and are dead;
`GLANCE` updates only two finger targets. -/
def gestureCatalogF : List (String × GestureFn) := [
  ("SEE", fun sin _cos time s =>
    let seeTap := sin (time * 5) * 0.2
    (((((s.setWrist (seeTap + 0.2) 0 0).setFace .index 0).setFace
        .middle 0).setFace .thumb 1.5).setFace .ring 1.5).setFace
        .pinky 1.5),
  ("LOOK", fun sin _cos time s =>
    let lookPoint := sin (time * 4) * 0.3
    (((((s.setWrist 0 0 lookPoint).setFace .index 0).setFace .middle
        0).setFace .thumb 1.5).setFace .ring 1.5).setFace .pinky 1.5),
  ("WATCH", fun sin _cos time s =>
    let watchStare := sin (time * 2) * 0.1
    (((((s.setWrist 0 0 (watchStare + 0.1)).setFace .index 0).setFace
        .middle 0).setFace .thumb 1.5).setFace .ring 1.5).setFace
        .pinky 1.5),
  ("HEAR", fun sin _cos time s =>
    let hearTap := abs (sin (time * 6)) * 0.2
    ((s.setWrist (hearTap + 0.2) 0 0).pointIndex)),
  ("LISTEN", fun sin _cos time s =>
    let listenCup := sin (time * 4) * 0.2
    (((((s.setWrist (listenCup + 0.2) 0 0).setFace .thumb 0.2).setFace
        .index 0.2).setFace .middle 0.2).setFace .ring 0.2).setFace
        .pinky 0.2),
  ("FEEL", fun sin _cos time s =>
    let feelChest := sin (time * 4) * 0.2
    (((((s.setWrist feelChest 0 0).setFace .middle 0).setFace .thumb
        1.5).setFace .index 1.5).setFace .ring 1.5).setFace .pinky 1.5),
  ("TOUCH", fun sin _cos time s =>
    let touchTap := abs (sin (time * 6)) * 0.2
    (((((s.setWrist 0 0 touchTap).setFace .middle 0).setFace .thumb
        1.5).setFace .index 1.5).setFace .ring 1.5).setFace .pinky 1.5),
  ("SMELL", fun sin _cos time s =>
    let smellWaft := sin (time * 4) * 0.2
    ((s.setWrist (smellWaft + 0.2) 0 0).flatHand)),
  ("TASTE", fun sin _cos time s =>
    let tasteTap := abs (sin (time * 6)) * 0.2
    (((((s.setWrist tasteTap 0 0).setFace .middle 0).setFace .thumb
        1.5).setFace .index 1.5).setFace .ring 1.5).setFace .pinky 1.5),
  ("SENSE", fun sin _cos time s =>
    let senseVibe := sin (time * 10) * 0.1
    ((s.setWrist senseVibe 0 0).flatHand)),
  ("OBSERVE", fun sin _cos time s =>
    let obsStare := sin (time * 3) * 0.2
    (((((s.setWrist 0 0 obsStare).setFace .index 0).setFace .middle
        0).setFace .thumb 1.5).setFace .ring 1.5).setFace .pinky 1.5),
  ("STARE", fun sin _cos time s =>
    let stareIntense := sin (time * 2) * 0.1
    (((((s.setWrist 0 0 (stareIntense + 0.2)).setFace .thumb
        1.5).setFace .index 0).setFace .middle 0).setFace .ring
        0).setFace .pinky 0),
  ("GLANCE", fun sin _cos time s =>
    let glanceQuick := sin (time * 8) * 0.3
    ((s.setWrist (glanceQuick + 0.2) glanceQuick 0).setFace .index
        0).setFace .middle 0),
  ("PEEK", fun sin _cos time s =>
    let peekCover := sin (time * 3) * 0.3
    (((((s.setWrist (peekCover + 0.2) 0 0).setFace .thumb 1.0).setFace
        .index 1.0).setFace .middle 1.0).setFace .ring 1.0).setFace
        .pinky 1.0),
  ("SEARCH", fun sin _cos time s =>
    let searchCircle := sin (time * 5) * 0.3
    (((((s.setWrist (searchCircle + 0.2) searchCircle 0).setFace .thumb
        0.5).setFace .index 0.5).setFace .middle 0.5).setFace .ring
        0.5).setFace .pinky 0.5),
  ("FIND", fun sin _cos time s =>
    let findPick := sin (time * 6) * 0.4
    (((((s.setWrist 0 findPick 0).setFace .thumb 0.8).setFace .index
        0.8).setFace .middle 0).setFace .ring 0).setFace .pinky 0),
  ("DISCOVER", fun sin _cos time s =>
    let discFound := sin (time * 6) * 0.4
    (((((s.setWrist 0 discFound 0).setFace .thumb 1.5).setFace .index
        1.5).setFace .middle 1.5).setFace .ring 1.5).setFace .pinky 1.5),
  ("SPOT", fun sin _cos time s =>
    let spotPoint := sin (time * 8) * 0.5
    ((s.setWrist 0 0 spotPoint).pointIndex)),
  ("DETECT", fun sin _cos time s =>
    let detectSense := sin (time * 4) * 0.2
    (((((s.setWrist (detectSense + 0.2) 0 0).setFace .middle 0).setFace
        .thumb 1.5).setFace .index 1.5).setFace .ring 1.5).setFace
        .pinky 1.5),
  ("BE", fun sin _cos time s =>
    let beHold := sin (time * 3) * 0.2
    ((s.setWrist 0 beHold 0).flatHand)),
  ("HAVE", fun sin _cos time s =>
    let haveIn := sin (time * 4) * 0.3
    ((s.setWrist haveIn 0 0).flatHand)),
  ("BECOME", fun sin _cos time s =>
    let becomeTwist := sin (time * 4) * 0.4
    ((s.setWrist becomeTwist becomeTwist 0).flatHand)),
  ("STAY", fun sin _cos time s =>
    let stayPush := sin (time * 5) * 0.4
    (((((s.setWrist 0 0 stayPush).setFace .thumb 0).setFace .pinky
        0).setFace .index 1.5).setFace .middle 1.5).setFace .ring 1.5),
  ("REMAIN", fun sin _cos time s =>
    let remainDown := sin (time * 3) * 0.3
    (((((s.setWrist 0 0 remainDown).setFace .thumb 0).setFace .pinky
        0).setFace .index 1.5).setFace .middle 1.5).setFace .ring 1.5),
  ("SEEM", fun sin _cos time s =>
    let seemTurn := sin (time * 4) * 0.2
    ((s.setWrist seemTurn 0 0).flatHand)),
  ("APPEAR", fun sin _cos time s =>
    let appearPop := abs (sin (time * 6)) * 0.4
    ((s.setWrist 0 appearPop 0).pointIndex)),
  ("EXIST", fun sin _cos time s =>
    let existDown := sin (time * 3) * 0.2
    ((s.setWrist existDown 0 0).flatHand)),
  ("LIVE", fun sin _cos time s =>
    let liveUp := sin (time * 4) * 0.4
    (((((s.setWrist 0 liveUp 0).setFace .thumb 0).setFace .index
        0).setFace .middle 1.5).setFace .ring 1.5).setFace .pinky 1.5),
  ("DIE", fun sin _cos time s =>
    let dieFlip := sin (time * 4) * 0.5
    ((s.setWrist dieFlip 0 0).flatHand)),
  ("BELONG", fun sin _cos time s =>
    let belongConnect := sin (time * 4) * 0.3
    (((((s.setWrist belongConnect 0 0).setFace .thumb 0.8).setFace
        .index 0.8).setFace .middle 0).setFace .ring 0).setFace
        .pinky 0),
  ("CONTAIN", fun sin _cos time s =>
    let containCup := sin (time * 3) * 0.3
    (((((s.setWrist 0 containCup 0).setFace .thumb 0.5).setFace .index
        0.5).setFace .middle 0.5).setFace .ring 0.5).setFace .pinky 0.5),
  ("INCLUDE", fun sin _cos time s =>
    let includeSweep := sin (time * 4) * 0.4
    ((s.setWrist includeSweep 0 0).flatHand)),
  ("INVOLVE", fun sin _cos time s =>
    let involveCir := sin (time * 4) * 0.3
    (((((s.setWrist involveCir 0 0).setFace .thumb 0.5).setFace .index
        0.5).setFace .middle 0.5).setFace .ring 0.5).setFace .pinky 0.5),
  ("REQUIRE", fun sin _cos time s =>
    let reqPullIn := sin (time * 5) * 0.3
    (((((s.setWrist reqPullIn 0 0).setFace .index 0.7).setFace .thumb
        1.5).setFace .middle 1.5).setFace .ring 1.5).setFace .pinky 1.5),
  ("HATE", fun sin _cos time s =>
    let hateFlick := sin (time * 6) * 0.4
    (((((s.setWrist hateFlick 0 0).setFace .middle 0).setFace .thumb
        1.5).setFace .index 1.5).setFace .ring 1.5).setFace .pinky 1.5),
  ("PREFER", fun sin _cos time s =>
    let preferTouch := sin (time * 4) * 0.2
    (((((s.setWrist preferTouch 0 0).setFace .middle 0).setFace .thumb
        1.5).setFace .index 1.5).setFace .ring 1.5).setFace .pinky 1.5),
  ("DESERVE", fun sin _cos time s =>
    let deserveTap := sin (time * 5) * 0.3
    ((s.setWrist 0 0 deserveTap).flatHand)),
  ("OWE", fun sin _cos time s =>
    let owePoint := sin (time * 4) * 0.3
    ((s.setWrist owePoint 0 0).pointIndex)),
  ("OWN", fun sin _cos time s =>
    let ownIn := sin (time * 3) * 0.3
    ((s.setWrist ownIn 0 0).flatHand)),
  ("POSSESS", fun sin _cos time s =>
    let possessChest := sin (time * 3) * 0.3
    ((s.setWrist possessChest 0 0).flatHand))]

/-- Catalog entries, source lines 1703-1993 (place nouns, rooms). -/
def gestureCatalogG : List (String × GestureFn) := [
  ("OFFICE", fun sin _cos time s =>
    let officeWall := sin (time * 4) * 0.3
    (((((s.setWrist 0 officeWall 0).setFace .thumb 1.0).setFace .index
        1.0).setFace .middle 1.0).setFace .ring 1.0).setFace .pinky 1.0),
  ("GARDEN", fun sin _cos time s =>
    let gardenBloom := sin (time * 4) * 0.3
    (((((s.setWrist 0 gardenBloom 0).setFace .thumb 1.0).setFace .index
        (0.5 + sin (time * 5) * 0.5)).setFace .middle
        (0.5 + sin (time * 5) * 0.5)).setFace .ring
        (0.5 + sin (time * 5) * 0.5)).setFace .pinky
        (0.5 + sin (time * 5) * 0.5)),
  ("YARD", fun sin _cos time s =>
    let yardZone := sin (time * 4) * 0.4
    (((((s.setWrist yardZone 0 0).setFace .thumb 0).setFace .pinky
        0).setFace .index 1.5).setFace .middle 1.5).setFace .ring 1.5),
  ("MOUNTAIN", fun sin _cos time s =>
    let mtnSlope := sin (time * 4) * 0.5
    ((s.setWrist mtnSlope (mtnSlope * 0.5) 0).fist)),
  ("FOREST", fun sin _cos time s =>
    let forestTree := sin (time * 5) * 0.3
    ((s.setWrist forestTree 0 0).flatHand)),
  ("LAKE", fun sin _cos time s =>
    let lakeSplash := sin (time * 4) * 0.3
    (((((s.setWrist 0 lakeSplash 0).setFace .thumb 0).setFace .index
        0).setFace .middle 1.5).setFace .ring 1.5).setFace .pinky 1.5),
  ("RIVER", fun sin _cos time s =>
    let riverFlow := sin (time * 3) * 0.4
    (((((s.setWrist riverFlow 0 0).setFace .thumb 1.5).setFace .index
        0).setFace .middle 0).setFace .ring 0).setFace .pinky 1.5),
  ("OCEAN", fun sin _cos time s =>
    let oceanWave := sin (time * 3) * 0.5
    (((((s.setWrist oceanWave 0 (oceanWave * 0.2)).setFace .thumb
        1.5).setFace .index 0).setFace .middle 0).setFace .ring
        0).setFace .pinky 1.5),
  ("RESTAURANT", fun sin _cos time s =>
    let restWipe := sin (time * 5) * 0.3
    (((((s.setWrist restWipe 0 0).setFace .index 0).setFace .middle
        0).setFace .thumb 1.5).setFace .ring 1.5).setFace .pinky 1.5),
  ("CAFE", fun sin _cos time s =>
    let cafeDrink := sin (time * 4) * 0.2
    (((((s.setWrist cafeDrink 0 0).setFace .thumb 0.5).setFace .index
        0.5).setFace .middle 0.5).setFace .ring 0.5).setFace .pinky 0.5),
  ("BAR", fun sin _cos time s =>
    let barThumb := sin (time * 4) * 0.2
    ((s.setWrist barThumb 0 0).fist)),
  ("LIBRARY", fun sin _cos time s =>
    let libCircle := sin (time * 4) * 0.3
    (((((s.setWrist libCircle libCircle 0).setFace .thumb 0).setFace
        .index 0).setFace .middle 1.5).setFace .ring 1.5).setFace
        .pinky 1.5),
  ("MUSEUM", fun sin _cos time s =>
    let musM := sin (time * 4) * 0.3
    (((((s.setWrist musM 0 0).setFace .thumb 1.5).setFace .index
        0).setFace .middle 0).setFace .ring 0).setFace .pinky 1.5),
  ("THEATER", fun sin _cos time s =>
    let theaterActs := sin (time * 4) * 0.4
    ((s.setWrist theaterActs 0 0).fist)),
  ("CINEMA", fun sin _cos time s =>
    let cinemaFlick := sin (time * 6) * 0.3
    ((s.setWrist cinemaFlick 0 0).flatHand)),
  ("GYM", fun sin _cos time s =>
    let gymRep := sin (time * 5) * 0.4
    ((s.setWrist gymRep 0 0).fist)),
  ("STADIUM", fun sin _cos time s =>
    let stadArena := sin (time * 4) * 0.5
    (((((s.setWrist 0 stadArena 0).setFace .thumb 0.5).setFace .index
        0.5).setFace .middle 0.5).setFace .ring 0.5).setFace .pinky 0.5),
  ("ARENA", fun sin _cos time s =>
    let arenaArea := sin (time * 4) * 0.5
    ((s.setWrist 0 arenaArea 0).flatHand)),
  ("BANK", fun sin _cos time s =>
    let bankStack := sin (time * 5) * 0.3
    (((((s.setWrist bankStack 0 0).setFace .thumb 0).setFace .index
        0).setFace .middle 0).setFace .ring 0).setFace .pinky 0),
  ("HOTEL", fun sin _cos time s =>
    let hotelFlag := sin (time * 4) * 0.3
    (((((s.setWrist 0 hotelFlag 0).setFace .index 0).setFace .middle
        0).setFace .thumb 1.5).setFace .ring 1.5).setFace .pinky 1.5),
  ("MOTEL", fun sin _cos time s =>
    let motelM := sin (time * 4) * 0.3
    (((((s.setWrist 0 motelM 0).setFace .thumb 1.5).setFace .pinky
        1.5).setFace .index 0).setFace .middle 0).setFace .ring 0),
  ("AIRPORT", fun sin _cos time s =>
    let airFly := sin (time * 5) * 0.5
    (((((s.setWrist airFly 0 (airFly * 0.3)).setFace .thumb 0).setFace
        .index 0).setFace .pinky 0).setFace .middle 1.5).setFace
        .ring 1.5),
  ("STATION", fun sin _cos time s =>
    let statBase := sin (time * 2) * 0.2
    ((s.setWrist statBase 0 0).flatHand)),
  ("PORT", fun sin _cos time s =>
    let portDock := sin (time * 3) * 0.3
    ((s.setWrist portDock 0 0).flatHand)),
  ("CITY", fun sin _cos time s =>
    let cityTwist := sin (time * 4) * 0.3
    (((((s.setWrist cityTwist cityTwist 0).setFace .thumb 0).setFace
        .index 0).setFace .middle 0).setFace .ring 0).setFace .pinky 0),
  ("TOWN", fun sin _cos time s =>
    let townRoof := sin (time * 3) * 0.3
    ((s.setWrist townRoof 0 0).flatHand)),
  ("VILLAGE", fun sin _cos time s =>
    let villV := sin (time * 3) * 0.3
    (((((s.setWrist villV 0 0).setFace .index 0).setFace .middle
        0).setFace .thumb 1.5).setFace .ring 1.5).setFace .pinky 1.5),
  ("COUNTRY", fun sin _cos time s =>
    let countryRub := sin (time * 4) * 0.3
    (((((s.setWrist countryRub 0 0).setFace .thumb 0).setFace .pinky
        0).setFace .index 1.5).setFace .middle 1.5).setFace .ring 1.5),
  ("STATE", fun sin _cos time s =>
    let stateS := sin (time * 3) * 0.3
    ((s.setWrist stateS 0 0).fist)),
  ("WORLD", fun sin _cos time s =>
    let worldCir := sin (time * 3) * 0.4
    (((((s.setWrist worldCir worldCir 0).setFace .thumb 1.5).setFace
        .pinky 1.5).setFace .index 0).setFace .middle 0).setFace
        .ring 0),
  ("ROOM", fun sin _cos time s =>
    let roomBox := sin (time * 4) * 0.4
    ((s.setWrist roomBox 0 0).flatHand)),
  ("KITCHEN", fun sin _cos time s =>
    let kitchK := sin (time * 4) * 0.3
    (((((s.setWrist kitchK 0 0).setFace .thumb 0).setFace .index
        0).setFace .middle 0).setFace .ring 1.5).setFace .pinky 1.5),
  ("BATHROOM", fun sin _cos time s =>
    let bathT := sin (time * 6) * 0.2
    (((((s.setWrist bathT 0 0).setFace .thumb 0.5).setFace .index
        1.5).setFace .middle 1.5).setFace .ring 1.5).setFace .pinky 1.5),
  ("BEDROOM", fun sin _cos time s =>
    let bedSleep2 := sin (time * 2) * 0.3
    ((s.setWrist bedSleep2 0 0).flatHand)),
  ("LIVING", fun sin _cos time s =>
    let livingL := sin (time * 3) * 0.3
    ((s.setWrist livingL 0 0).fist)),
  ("DINING", fun sin _cos time s =>
    let dineEat := sin (time * 5) * 0.3
    (((((s.setWrist dineEat 0 0).setFace .thumb 0.7).setFace .index
        0.7).setFace .middle 0.7).setFace .ring 0.7).setFace .pinky 0.7),
  ("GARAGE", fun sin _cos time s =>
    let garageCar := sin (time * 4) * 0.3
    (((((s.setWrist garageCar 0 0).setFace .thumb 1.5).setFace .index
        0).setFace .middle 0).setFace .ring 0).setFace .pinky 0),
  ("BASEMENT", fun sin _cos time s =>
    let baseUnder := sin (time * 4) * 0.3
    ((s.setWrist 0 (-baseUnder) 0).thumbsUp)),
  ("ATTIC", fun sin _cos time s =>
    let atticTop := sin (time * 4) * 0.3
    ((s.setWrist 0 atticTop 0).fist)),
  ("FLOOR", fun sin _cos time s =>
    let floorFlat := sin (time * 4) * 0.4
    ((s.setWrist floorFlat 0 0).flatHand)),
  ("CEILING", fun sin _cos time s =>
    let ceilUp := sin (time * 4) * 0.4
    ((s.setWrist ceilUp 0.5 0).flatHand)),
  ("WALL", fun sin _cos time s =>
    let wallSide := sin (time * 4) * 0.4
    ((s.setWrist 0 wallSide 0).flatHand)),
  ("CORNER", fun sin _cos time s =>
    let cornerMeet := sin (time * 3) * 0.2
    ((s.setWrist cornerMeet 0 0).flatHand)),
  ("HALLWAY", fun sin _cos time s =>
    let hallWay := sin (time * 4) * 0.4
    ((s.setWrist 0 0 hallWay).flatHand)),
  ("STAIRS", fun sin _cos time s =>
    let stairClimb := sin (time * 6) * 0.4
    (((((s.setWrist 0 stairClimb (stairClimb * 0.5)).setFace .index
        0).setFace .middle 0).setFace .thumb 1.5).setFace .ring
        1.5).setFace .pinky 1.5),
  ("ELEVATOR", fun sin _cos time s =>
    let elevUp := sin (time * 4) * 0.4
    (((((s.setWrist 0 elevUp 0).setFace .thumb 1.5).setFace .index
        1.5).setFace .middle 1.5).setFace .ring 1.5).setFace .pinky 1.5),
  ("LOBBY", fun sin _cos time s =>
    let lobbyL := sin (time * 5) * 0.3
    (((((s.setWrist lobbyL 0 0).setFace .thumb 0).setFace .index
        0).setFace .middle 1.5).setFace .ring 1.5).setFace .pinky 1.5),
  ("ENTRANCE", fun sin _cos time s =>
    let enterScoop := sin (time * 4) * 0.3
    ((s.setWrist 0 0 enterScoop).flatHand)),
  ("EXIT", fun sin _cos time s =>
    let exitPoint := sin (time * 4) * 0.3
    ((s.setWrist exitPoint 0 0).pointIndex))]

/-- Catalog entries, source lines 1994-2145 (roads, person nouns).
`PERSON` and `PEOPLE` repeat earlier labels and are dead; `STRANGER`
updates only the index target. -/
def gestureCatalogH : List (String × GestureFn) := [
  ("STREET", fun sin _cos time s =>
    let roadPath := sin (time * 4) * 0.5
    ((s.setWrist 0 0 roadPath).flatHand)),
  ("ROAD", fun sin _cos time s =>
    let roadPath := sin (time * 4) * 0.5
    ((s.setWrist 0 0 roadPath).flatHand)),
  ("HIGHWAY", fun sin _cos time s =>
    let roadPath := sin (time * 4) * 0.5
    ((s.setWrist 0 0 roadPath).flatHand)),
  ("PATH", fun sin _cos time s =>
    let roadPath := sin (time * 4) * 0.5
    ((s.setWrist 0 0 roadPath).flatHand)),
  ("SIDEWALK", fun sin _cos time s =>
    let sidePath := sin (time * 4) * 0.4
    ((s.setWrist sidePath 0 sidePath).flatHand)),
  ("BRIDGE", fun sin _cos time s =>
    let bridgeArc := sin (time * 3) * 0.3
    (((((s.setWrist 0 bridgeArc 0).setFace .index 0).setFace .middle
        0).setFace .thumb 1.5).setFace .ring 1.5).setFace .pinky 1.5),
  ("TUNNEL", fun sin _cos time s =>
    let tunnelThru := sin (time * 4) * 0.4
    ((s.setWrist 0 0 tunnelThru).flatHand)),
  ("INTERSECTION", fun sin _cos time s =>
    let interCross := sin (time * 3) * 0.2
    ((s.setWrist interCross 0 0).pointIndex)),
  ("NEIGHBORHOOD", fun sin _cos time s =>
    let neighborHouse := sin (time * 4) * 0.3
    ((s.setWrist neighborHouse 0 0).flatHand)),
  ("DOWNTOWN", fun sin _cos time s =>
    let downT := sin (time * 4) * 0.3
    ((s.setWrist downT (-downT) 0).pointIndex)),
  ("SUBURB", fun sin _cos time s =>
    let subArea := sin (time * 4) * 0.4
    ((s.setWrist subArea 0 0).flatHand)),
  ("SON", fun sin _cos time s =>
    let sonSalute := sin (time * 4) * 0.3
    (((((s.setWrist (sonSalute + 0.3) 0 0).setFace .index 0).setFace
        .middle 0).setFace .thumb 1.5).setFace .ring 1.5).setFace
        .pinky 1.5),
  ("DAUGHTER", fun sin _cos time s =>
    let daughtLine := sin (time * 4) * 0.3
    ((s.setWrist daughtLine 0 0).flatHand)),
  ("PARENT", fun sin _cos time s =>
    let parentP := sin (time * 4) * 0.3
    (((((s.setWrist (parentP + 0.3) 0 0).setFace .thumb 1.5).setFace
        .index 0).setFace .middle 1.5).setFace .ring 1.5).setFace
        .pinky 1.5),
  ("GRANDMA", fun sin _cos time s =>
    let gmaBump := sin (time * 4) * 0.3
    ((s.setWrist gmaBump 0 0).flatHand)),
  ("GRANDMOTHER", fun sin _cos time s =>
    let gmaBump := sin (time * 4) * 0.3
    ((s.setWrist gmaBump 0 0).flatHand)),
  ("GRANDPA", fun sin _cos time s =>
    let gpaBump := sin (time * 4) * 0.3
    ((s.setWrist (gpaBump + 0.3) 0 0).flatHand)),
  ("GRANDFATHER", fun sin _cos time s =>
    let gpaBump := sin (time * 4) * 0.3
    ((s.setWrist (gpaBump + 0.3) 0 0).flatHand)),
  ("AUNT", fun sin _cos time s =>
    let auntA := sin (time * 5) * 0.2
    ((s.setWrist auntA 0 0).fist)),
  ("UNCLE", fun sin _cos time s =>
    let uncleU := sin (time * 5) * 0.2
    (((((s.setWrist (uncleU + 0.3) 0 0).setFace .index 0).setFace
        .middle 0).setFace .thumb 1.5).setFace .ring 1.5).setFace
        .pinky 1.5),
  ("COUSIN", fun sin _cos time s =>
    let cousinC := sin (time * 5) * 0.2
    (((((s.setWrist (cousinC + 0.2) 0 0).setFace .thumb 0.5).setFace
        .index 0.5).setFace .middle 0.5).setFace .ring 0.5).setFace
        .pinky 0.5),
  ("NIECE", fun sin _cos time s =>
    let nieceN := sin (time * 4) * 0.2
    (((((s.setWrist nieceN 0 0).setFace .thumb 1.5).setFace .index
        1.5).setFace .middle 1.5).setFace .ring 1.5).setFace .pinky 1.5),
  ("NEPHEW", fun sin _cos time s =>
    let nephewN := sin (time * 4) * 0.2
    (((((s.setWrist (nephewN + 0.3) 0 0).setFace .thumb 1.5).setFace
        .index 1.5).setFace .middle 1.5).setFace .ring 1.5).setFace
        .pinky 1.5),
  ("NEIGHBOR", fun sin _cos time s =>
    let neighborSide := sin (time * 4) * 0.3
    ((s.setWrist neighborSide 0 0).flatHand)),
  ("STRANGER", fun sin _cos time s =>
    let strangerLook := sin (time * 3) * 0.3
    ((s.setWrist 0 0 strangerLook).setFace .index 0.5)),
  ("PERSON", fun sin _cos time s =>
    let personP2 := sin (time * 4) * 0.4
    (((((s.setWrist 0 (-personP2) 0).setFace .thumb 1.5).setFace .index
        0).setFace .middle 1.5).setFace .ring 1.5).setFace .pinky 1.5),
  ("PEOPLE", fun sin _cos time s =>
    let peopleCircle := sin (time * 5) * 0.3
    (((((s.setWrist peopleCircle peopleCircle 0).setFace .thumb
        1.5).setFace .index 0).setFace .middle 1.5).setFace .ring
        1.5).setFace .pinky 1.5),
  ("MAN", fun sin _cos time s =>
    let manChest := sin (time * 3) * 0.3
    ((s.setWrist (manChest + 0.3) 0 0).flatHand)),
  ("WOMAN", fun sin _cos time s =>
    let womanChin := sin (time * 3) * 0.3
    ((s.setWrist womanChin 0 0).flatHand)),
  ("BOY", fun sin _cos time s =>
    let boyCap := sin (time * 4) * 0.2
    (((((s.setWrist (boyCap + 0.3) 0 0).setFace .thumb 0.5).setFace
        .index 0.5).setFace .middle 0.5).setFace .ring 0.5).setFace
        .pinky 0.5),
  ("GIRL", fun sin _cos time s =>
    let girlBonnet := sin (time * 4) * 0.2
    ((s.setWrist girlBonnet 0 0).fist))]

/-- Catalog entries, source lines 2149-2406 (object nouns, animals,
time nouns, adjectives and colors).  The `KEYBOARD` case (source lines
2159-2164) sits between `TABLET` and `MOUSE` in the switch but is kept
out of this randomness-free table; `updateLogicTargets` dispatches it
before the table lookup, which preserves the switch semantics because
all labels are matched literally.  `DOOR`, `HAPPY` and `SAD` repeat
earlier labels and are dead; `DOG`, `BIRD` and `CAMERA` update only
some finger targets. -/
def gestureCatalogI : List (String × GestureFn) := [
  ("LAPTOP", fun sin _cos time s =>
    let laptopOpen := sin (time * 3) * 0.5
    ((s.setWrist laptopOpen 0 0).flatHand)),
  ("TABLET", fun sin _cos time s =>
    let tabTap := sin (time * 5) * 0.2
    ((s.setWrist 0 tabTap 0).pointIndex)),
  ("MOUSE", fun sin _cos time s =>
    let mouseClick := sin (time * 8) * 0.1
    (((((s.setWrist 0 0 mouseClick).setFace .index 0.2).setFace .thumb
        0.5).setFace .middle 0.5).setFace .ring 0.5).setFace .pinky 0.5),
  ("SCREEN", fun sin _cos time s =>
    let screenBox := sin (time * 4) * 0.4
    (((((s.setWrist screenBox 0 0).setFace .thumb 1.5).setFace .index
        0).setFace .middle 0).setFace .ring 0).setFace .pinky 0),
  ("CAMERA", fun sin _cos time s =>
    let camClick := sin (time * 3) * 0.1
    (((s.setWrist (camClick + 0.3) 0 0).setFace .index 0.5).setFace
        .thumb 0.5)),
  ("BUS", fun sin _cos time s =>
    let busWheel := sin (time * 3) * 0.4
    ((s.setWrist 0 busWheel 0).fist)),
  ("TRAIN", fun sin _cos time s =>
    let trainRide := sin (time * 8) * 0.3
    (((((s.setWrist 0 trainRide 0).setFace .index 0).setFace .middle
        0).setFace .thumb 1.5).setFace .ring 1.5).setFace .pinky 1.5),
  ("PLANE", fun sin _cos time s =>
    let planeFly := sin (time * 5) * 0.5
    (((((s.setWrist (planeFly + 0.3) 0 0).setFace .thumb 0).setFace
        .index 0).setFace .pinky 0).setFace .middle 1.5).setFace
        .ring 1.5),
  ("BOAT", fun sin _cos time s =>
    let boatRock := sin (time * 3) * 0.4
    ((s.setWrist 0 boatRock 0).flatHand)),
  ("BICYCLE", fun sin _cos time s =>
    let bikePedal := sin (time * 6) * 0.4
    ((s.setWrist bikePedal 0 0).fist)),
  ("DOOR", fun sin _cos time s =>
    let doorOpen := sin (time * 3) * 0.6
    ((s.setWrist 0 0 doorOpen).flatHand)),
  ("WINDOW", fun sin _cos time s =>
    let winUp := sin (time * 3) * 0.4
    ((s.setWrist 0 winUp 0).flatHand)),
  ("CLOTHES", fun sin _cos time s =>
    let clothRub := sin (time * 4) * 0.3
    ((s.setWrist 0 (-clothRub) 0).flatHand)),
  ("SHOES", fun sin _cos time s =>
    let shoeTap := sin (time * 6) * 0.3
    ((s.setWrist shoeTap 0 0).fist)),
  ("FOOD", fun sin _cos time s =>
    let foodMouth := sin (time * 5) * 0.3
    (((((s.setWrist foodMouth 0 0).setFace .thumb 1.0).setFace .index
        1.0).setFace .middle 1.0).setFace .ring 1.0).setFace .pinky 1.0),
  ("WATER", fun sin _cos time s =>
    let waterTap := sin (time * 4) * 0.2
    (((((s.setWrist waterTap 0 0).setFace .thumb 1.5).setFace .index
        0).setFace .middle 0).setFace .ring 0).setFace .pinky 1.5),
  ("DOG", fun sin _cos time s =>
    let dogSnap := sin (time * 6) * 0.3
    (((s.setWrist dogSnap 0 0).setFace .middle 0.5).setFace .thumb 0.5)),
  ("CAT", fun sin _cos time s =>
    let catWh := sin (time * 4) * 0.3
    (((((s.setWrist catWh 0 0).setFace .thumb 0.5).setFace .index
        0.5).setFace .middle 0.5).setFace .ring 0.5).setFace .pinky 0.5),
  ("BIRD", fun sin _cos time s =>
    let birdBeak := sin (time * 8) * 0.2
    (((s.setWrist birdBeak 0 0).setFace .index
        (0.8 * abs (sin (time * 5)))).setFace .thumb
        (0.8 * abs (sin (time * 5))))),
  ("FISH", fun sin _cos time s =>
    let fishSwim := sin (time * 6) * 0.4
    ((s.setWrist 0 fishSwim 0).flatHand)),
  ("HORSE", fun sin _cos time s =>
    let horseEar := sin (time * 5) * 0.2
    (((((s.setWrist (horseEar + 0.3) 0 0).setFace .index 0).setFace
        .middle 0).setFace .thumb 1.5).setFace .ring 1.5).setFace
        .pinky 1.5),
  ("COW", fun sin _cos time s =>
    let cowHorn := sin (time * 4) * 0.3
    (((((s.setWrist (cowHorn + 0.3) 0 0).setFace .thumb 0).setFace
        .pinky 0).setFace .index 1.5).setFace .middle 1.5).setFace
        .ring 1.5),
  ("PIG", fun sin _cos time s =>
    let pigChin := sin (time * 5) * 0.2
    ((s.setWrist pigChin 0 0).flatHand)),
  ("POOL", fun sin _cos time s =>
    let poolSwim := sin (time * 5) * 0.5
    ((s.setWrist poolSwim 0 0).flatHand)),
  ("TIME", fun sin _cos time s =>
    let timeTap := sin (time * 4) * 0.2
    ((s.setWrist 0 timeTap timeTap).pointIndex)),
  ("NOW", fun sin _cos time s =>
    let nowDown := sin (time * 3) * 0.4
    (((((s.setWrist 0 nowDown 0).setFace .thumb 0).setFace .pinky
        0).setFace .index 1.5).setFace .middle 1.5).setFace .ring 1.5),
  ("DAY", fun sin _cos time s =>
    let dayArc := sin (time * 3) * 0.6
    ((s.setWrist dayArc 0 0).pointIndex)),
  ("NIGHT", fun sin _cos time s =>
    let nightCover := sin (time * 3) * 0.4
    ((s.setWrist 0 0 nightCover).flatHand)),
  ("MORNING", fun sin _cos time s =>
    let mornUp := sin (time * 3) * 0.4
    ((s.setWrist mornUp 0 0).flatHand)),
  ("WEEK", fun sin _cos time s =>
    let weekSlide := sin (time * 4) * 0.4
    ((s.setWrist 0 weekSlide 0).pointIndex)),
  ("MONTH", fun sin _cos time s =>
    let monthSlide := sin (time * 4) * 0.4
    ((s.setWrist monthSlide 0 0).pointIndex)),
  ("YEAR", fun sin _cos time s =>
    let yearCircle := sin (time * 3) * 0.4
    ((s.setWrist yearCircle yearCircle 0).fist)),
  ("TODAY", fun sin _cos time s =>
    let todayBounce := sin (time * 5) * 0.3
    (((((s.setWrist 0 todayBounce 0).setFace .thumb 0).setFace .pinky
        0).setFace .index 1.5).setFace .middle 1.5).setFace .ring 1.5),
  ("TOMORROW", fun sin _cos time s =>
    let tomThm := sin (time * 4) * 0.3
    (((((s.setWrist (tomThm + 0.3) 0 0).setFace .thumb 0).setFace
        .index 1.5).setFace .middle 1.5).setFace .ring 1.5).setFace
        .pinky 1.5),
  ("YESTERDAY", fun sin _cos time s =>
    let yestThm := sin (time * 4) * 0.3
    (((((s.setWrist (yestThm + 0.3) 0 0).setFace .thumb 0).setFace
        .index 1.5).setFace .middle 1.5).setFace .ring 1.5).setFace
        .pinky 1.5),
  ("HAPPY", fun sin _cos time s =>
    let happyUp := sin (time * 4) * 0.5
    ((s.setWrist happyUp 0 0).flatHand)),
  ("SAD", fun sin _cos time s =>
    let sadDown := sin (time * 3) * 0.4
    ((s.setWrist 0 (-sadDown) 0).flatHand)),
  ("ANGRY", fun sin _cos time s =>
    let angryClaw := sin (time * 5) * 0.5
    (((((s.setWrist angryClaw 0 0).setFace .thumb 0.5).setFace .index
        0.8).setFace .middle 0.8).setFace .ring 0.8).setFace .pinky 0.8),
  ("RED", fun sin _cos time s =>
    let redPull := sin (time * 4) * 0.3
    ((s.setWrist redPull 0 0).pointIndex)),
  ("BLUE", fun sin _cos time s =>
    let blueShake := sin (time * 10) * 0.3
    ((s.setWrist blueShake 0 0).flatHand)),
  ("GREEN", fun sin _cos time s =>
    let greenShake := sin (time * 10) * 0.3
    (((((s.setWrist greenShake 0 0).setFace .thumb 0).setFace .index
        0).setFace .middle 1.5).setFace .ring 1.5).setFace .pinky 1.5),
  ("MANY", fun sin _cos time s =>
    let manyWiggle := sin (time * 10) * 0.1
    ((s.setWrist 0 0 manyWiggle).flatHand))]

/-- The full catalog in source order. -/
def gestureCatalog : List (String × GestureFn) :=
  gestureCatalogA ++ gestureCatalogB ++ gestureCatalogC ++
  gestureCatalogD ++ gestureCatalogE ++ gestureCatalogF ++
  gestureCatalogG ++ gestureCatalogH ++ gestureCatalogI

/-- Source: `updateLogic(time)` (lines 162-2440), as a transformation
of the target pose keyed by the animation-state tag.  Order of
dispatch follows the source: the `IDLE`/`POSE` early return, then the
switch, whose cases are matched literally and in order (first match
wins) — realised as the `KEYBOARD` test plus the first-match catalog
lookup — and whose `default:` branch is `defaultTargets`. -/
def updateLogicTargets (sin cos : ℚ → ℚ) (rand : ℕ → ℚ) (state : String)
    (time : ℚ) (tgt : PoseState) : PoseState :=
  if state = "IDLE" ∨ state = "POSE" then idleSway sin time tgt
  else if state = "KEYBOARD" then keyboardTargets sin rand time tgt
  else
    match gestureCatalog.find? (fun p => p.1 = state) with
    | some p => p.2 sin cos time tgt
    | none => defaultTargets sin state time tgt

namespace RobotHand

/-- Source: `updateLogic(time)` on the hand: reads `animState`, writes
only the target state. -/
def updateLogic (sin cos : ℚ → ℚ) (rand : ℕ → ℚ) (time : ℚ)
    (h : RobotHand) : RobotHand :=
  { h with targetState :=
      updateLogicTargets sin cos rand h.animState time h.targetState }

/-- Source: `updateLerp()` (lines 2442-2457) — every component of the
current pose moves toward the target by the fixed factor 0.25. -/
def updateLerp (h : RobotHand) : RobotHand :=
  let factor : ℚ := 0.25
  { h with currentState :=
      { wristRot :=
          ⟨jsLerp h.currentState.wristRot.x h.targetState.wristRot.x factor,
           jsLerp h.currentState.wristRot.y h.targetState.wristRot.y factor,
           jsLerp h.currentState.wristRot.z h.targetState.wristRot.z factor⟩
        fingerCurls :=
          ⟨jsLerp h.currentState.fingerCurls.thumb h.targetState.fingerCurls.thumb factor,
           jsLerp h.currentState.fingerCurls.index h.targetState.fingerCurls.index factor,
           jsLerp h.currentState.fingerCurls.middle h.targetState.fingerCurls.middle factor,
           jsLerp h.currentState.fingerCurls.ring h.targetState.fingerCurls.ring factor,
           jsLerp h.currentState.fingerCurls.pinky h.targetState.fingerCurls.pinky factor⟩ } }

/-- Source: `applyToMesh()` (lines 2459-2475) — copies the current
wrist rotation onto the wrist joint and writes each finger curl
uniformly onto all three segments of that finger. -/
def applyToMesh (h : RobotHand) : RobotHand :=
  { h with mesh :=
      { wristRot := h.currentState.wristRot
        fingerSegs :=
          ⟨List.replicate 3 h.currentState.fingerCurls.thumb,
           List.replicate 3 h.currentState.fingerCurls.index,
           List.replicate 3 h.currentState.fingerCurls.middle,
           List.replicate 3 h.currentState.fingerCurls.ring,
           List.replicate 3 h.currentState.fingerCurls.pinky⟩ } }

/-- Source: `update(time)` (lines 147-160): logic, interpolation, the
NaN check on the current wrist rotation (reset to zero and
`console.error`, surfaced here as the Boolean), then the mesh write.
The update is total: it always completes and always writes the mesh. -/
def update (sin cos : ℚ → ℚ) (rand : ℕ → ℚ) (time : ℚ)
    (h : RobotHand) : RobotHand × Bool :=
  let h := h.updateLogic sin cos rand time
  let h := h.updateLerp
  let warn : Bool :=
    h.currentState.wristRot.x = none ∨ h.currentState.wristRot.y = none ∨
      h.currentState.wristRot.z = none
  let h :=
    if warn then
      { h with currentState := { h.currentState with wristRot := Euler3.zero } }
    else h
  (h.applyToMesh, warn)

end RobotHand

/-- Source: `ASL_ALPHABET` (src/ASLAlphabet.ts lines 6-45): the static
fingerspelling pose library, in source order.  Keys are the lowercase
letters and the digits; values are the five designer-chosen curls. -/
def ASL_ALPHABET : List (String × FingerCurls ℚ) := [
  ("a", ⟨0.1, 1.5, 1.5, 1.5, 1.5⟩),
  ("b", ⟨1.5, 0.0, 0.0, 0.0, 0.0⟩),
  ("c", ⟨0.5, 0.5, 0.5, 0.5, 0.5⟩),
  ("d", ⟨1.5, 0.0, 1.5, 1.5, 1.5⟩),
  ("e", ⟨1.5, 1.5, 1.5, 1.5, 1.5⟩),
  ("f", ⟨1.5, 1.2, 0.0, 0.0, 0.0⟩),
  ("g", ⟨0.5, 0.2, 1.5, 1.5, 1.5⟩),
  ("h", ⟨1.5, 0.2, 0.2, 1.5, 1.5⟩),
  ("i", ⟨1.4, 1.5, 1.5, 1.5, 0.0⟩),
  ("j", ⟨1.4, 1.5, 1.5, 1.5, 0.0⟩),
  ("k", ⟨0.5, 0.0, 0.5, 1.5, 1.5⟩),
  ("l", ⟨0.0, 0.0, 1.5, 1.5, 1.5⟩),
  ("m", ⟨1.2, 1.2, 1.2, 1.2, 1.5⟩),
  ("n", ⟨1.2, 1.2, 1.2, 1.5, 1.5⟩),
  ("o", ⟨1.2, 1.2, 1.2, 1.2, 1.2⟩),
  ("p", ⟨0.5, 0.5, 0.0, 1.5, 1.5⟩),
  ("q", ⟨0.5, 0.5, 1.5, 1.5, 1.5⟩),
  ("r", ⟨1.5, 0.1, 0.1, 1.5, 1.5⟩),
  ("s", ⟨1.2, 1.4, 1.4, 1.4, 1.4⟩),
  ("t", ⟨0.5, 1.2, 1.5, 1.5, 1.5⟩),
  ("u", ⟨1.5, 0.0, 0.0, 1.5, 1.5⟩),
  ("v", ⟨1.5, 0.0, 0.0, 1.5, 1.5⟩),
  ("w", ⟨1.2, 0.0, 0.0, 0.0, 1.5⟩),
  ("x", ⟨1.2, 0.8, 1.5, 1.5, 1.5⟩),
  ("y", ⟨0.0, 1.5, 1.5, 1.5, 0.0⟩),
  ("z", ⟨1.2, 0.0, 1.5, 1.5, 1.5⟩),
  ("0", ⟨1.2, 1.2, 1.2, 1.2, 1.2⟩),
  ("1", ⟨1.5, 0.0, 1.5, 1.5, 1.5⟩),
  ("2", ⟨1.5, 0.0, 0.0, 1.5, 1.5⟩),
  ("3", ⟨0.0, 0.0, 0.0, 1.5, 1.5⟩),
  ("4", ⟨1.5, 0.0, 0.0, 0.0, 0.0⟩),
  ("5", ⟨0.0, 0.0, 0.0, 0.0, 0.0⟩),
  ("6", ⟨0.0, 1.5, 1.5, 1.5, 0.0⟩),
  ("7", ⟨0.0, 1.5, 1.5, 0.0, 1.5⟩),
  ("8", ⟨0.0, 1.5, 0.0, 1.5, 1.5⟩),
  ("9", ⟨0.0, 0.8, 1.5, 1.5, 1.5⟩)]

/-- Property access `ASL_ALPHABET[key]`: `some pose` when the key is
present, `none` (JS `undefined`) otherwise. -/
def aslLookup (key : String) : Option (FingerCurls ℚ) :=
  (ASL_ALPHABET.find? (fun p => p.1 = key)).map Prod.snd

/-- JS `String.prototype.startsWith`, structurally (so that concrete
instances evaluate): is `p` a prefix of `s`. -/
def jsStartsWith (s p : String) : Bool :=
  p.data.isPrefixOf s.data

/-- JS `String.prototype.split` with a one-character separator, on the
character list: "CHAR_A" at the underscore gives ["CHAR", "A"], a
trailing separator yields a trailing empty group, exactly as in JS. -/
def splitChar (sep : Char) : List Char → List (List Char)
  | [] => [[]]
  | c :: rest =>
      let r := splitChar sep rest
      if c = sep then [] :: r
      else
        match r with
        | [] => [[c]]
        | g :: gs => (c :: g) :: gs

/-- JS `type.split(sep)` as a list of strings. -/
def jsSplitOn (s : String) (sep : Char) : List String :=
  (splitChar sep s.data).map (fun cs => ⟨cs⟩)

/-- JS `String.prototype.toUpperCase` on ASCII data. -/
def jsToUpper (s : String) : String :=
  ⟨s.data.map Char.toUpper⟩

/-- JS `String.prototype.toLowerCase` on ASCII data. -/
def jsToLower (s : String) : String :=
  ⟨s.data.map Char.toLower⟩

/-- The avatar (source: class RobotAvatar): the playback queue state,
the "current sign" display element (text content and opacity), and the
two hands.  Scene, camera, renderer and resize handling carry no
animation state and are omitted. -/
structure RobotAvatar where
  animationQueue : List String
  isAnimating : Bool
  currentAnimationEnd : ℚ
  signText : String
  signVisible : Bool
  leftHand : RobotHand
  rightHand : RobotHand
  deriving DecidableEq, Repr

/-- A freshly constructed avatar: empty queue, not animating, both
hands as built. -/
def RobotAvatar.build : RobotAvatar :=
  { animationQueue := []
    isAnimating := false
    currentAnimationEnd := 0
    signText := ""
    signVisible := false
    leftHand := RobotHand.build "left"
    rightHand := RobotHand.build "right" }

namespace RobotAvatar

/-- Source: `showCurrentSign(text)` — writes the text and opacity 1. -/
def showCurrentSign (a : RobotAvatar) (text : String) : RobotAvatar :=
  { a with signText := text, signVisible := true }

/-- Source: `hideCurrentSign()` — sets opacity 0 (the text content is
left in place; it is merely no longer visible). -/
def hideCurrentSign (a : RobotAvatar) : RobotAvatar :=
  { a with signVisible := false }

/-- The externally visible label: the text when shown, empty when the
display is hidden. -/
def visibleSign (a : RobotAvatar) : String :=
  if a.signVisible then a.signText else ""

/-- Source: `triggerAnimation(input)` (lines 2574-2587): the English
input is converted by the out-of-scope `englishToASLGloss` into the
ordered token sequence `glossWords`, each of which is pushed onto the
back of the queue.  The embedding takes the token sequence itself,
matching the spec boundary (the gloss transform is an external
collaborator). -/
def triggerAnimation (a : RobotAvatar) (glossWords : List String) :
    RobotAvatar :=
  { a with animationQueue := a.animationQueue ++ glossWords }

/-- Source: `startAnimation(type)` (lines 2619-2650).  `Date.now()` is
the parameter `now`.  For a `CHAR_*` token the letter is
splitting at the underscore; on a pose-library hit the right
hand is posed, the left hand is forced `IDLE` and the duration is 400
ms, otherwise the hands are untouched and the duration stays 800 ms;
for a word token both hands get the tag and the duration is 800 ms.
The display text is always shown.  (The letter is extracted by
splitting the token at the underscore and uppercasing part 1.) -/
def startAnimation (a : RobotAvatar) (type : String) (now : ℚ) :
    RobotAvatar :=
  let a := { a with isAnimating := true }
  if jsStartsWith type "CHAR_" then
    let char := jsToUpper ((jsSplitOn type '_').getD 1 "")
    match aslLookup (jsToLower char) with
    | some pose =>
        let a := { a with rightHand := a.rightHand.poseHand pose,
                          leftHand := a.leftHand.triggerAnimation "IDLE" now }
        { a.showCurrentSign char with currentAnimationEnd := now + 400 }
    | none =>
        { a.showCurrentSign char with currentAnimationEnd := now + 800 }
  else
    let a := { a with leftHand := a.leftHand.triggerAnimation type now,
                      rightHand := a.rightHand.triggerAnimation type now }
    { a.showCurrentSign type with currentAnimationEnd := now + 800 }

/-- The slot duration `startAnimation` records for a token: 400 ms for
a fingerspelled letter found in the library, 800 ms otherwise. -/
def durationOf (type : String) : ℚ :=
  if jsStartsWith type "CHAR_" then
    match aslLookup (jsToLower (jsToUpper ((jsSplitOn type '_').getD 1 ""))) with
    | some _ => 400
    | none => 800
  else 800

/-- Source: `animate()` (lines 2589-2617), one frame.  `now` is
`Date.now()`, `time` is `clock.getElapsedTime()`; `randL`, `randR` are
the Math.random draws available to the two hand updates this frame.
In order: dequeue-and-start when idle (the shifted token is dropped
without starting when it is the empty string, which is falsy), the
end-of-slot check (return to idle when the queue has drained), then
both hand updates. -/
def animate (sin cos : ℚ → ℚ) (randL randR : ℕ → ℚ) (now time : ℚ)
    (a : RobotAvatar) : RobotAvatar :=
  let a1 :=
    if a.isAnimating then a
    else
      match a.animationQueue with
      | [] => a
      | next :: rest =>
          if next = "" then { a with animationQueue := rest }
          else startAnimation { a with animationQueue := rest } next now
  let a2 :=
    if a1.isAnimating = true ∧ now > a1.currentAnimationEnd then
      let a1 := { a1 with isAnimating := false }
      if a1.animationQueue = [] then
        { a1.hideCurrentSign with
            leftHand := a1.leftHand.triggerAnimation "IDLE" now,
            rightHand := a1.rightHand.triggerAnimation "IDLE" now }
      else a1
    else a1
  { a2 with leftHand := (a2.leftHand.update sin cos randL time).1,
            rightHand := (a2.rightHand.update sin cos randR time).1 }

end RobotAvatar

/-!
Execution traces.  These wrap the per-frame operations into runs over
explicit input sequences, so that the temporal properties of the spec
(FIFO playback, drain-to-idle, trigger idempotence, NaN absorption)
can be stated over whole executions.
-/

/-- Per-tick inputs for a single hand: the wall clock, the elapsed
time, and the Math.random draws of that frame. -/
abbrev TickIn : Type := ℚ × ℚ × (ℕ → ℚ)

/-- The states a hand passes through under a sequence of plain update
ticks (no triggers in between). -/
def tickTrace (sin cos : ℚ → ℚ) : RobotHand → List TickIn → List RobotHand
  | _, [] => []
  | h, (_, time, rand) :: rest =>
      let h1 := (h.update sin cos rand time).1
      h1 :: tickTrace sin cos h1 rest

/-- The states a hand passes through when `triggerAnimation tag` is
re-issued before every tick (the repeated-call scenario). -/
def tickTraceRetrig (sin cos : ℚ → ℚ) (tag : String) :
    RobotHand → List TickIn → List RobotHand
  | _, [] => []
  | h, (now, time, rand) :: rest =>
      let h1 := ((h.triggerAnimation tag now).update sin cos rand time).1
      h1 :: tickTraceRetrig sin cos tag h1 rest

/-- Iterated interpolation of one scalar component toward a constant
target (the source `updateLerp` step on a single component). -/
def lerpIter (target c : ℚ) : ℕ → ℚ
  | 0 => c
  | n + 1 => lerp (lerpIter target c n) target 0.25

/-- One external event at the avatar boundary: an `enqueue` call with
a token sequence, or one render-loop frame with its two clock readings
and the random draws available to each hand. -/
inductive AvEvent where
  | enq (ws : List String)
  | tick (now time : ℚ) (randL randR : ℕ → ℚ)

/-- Run the avatar over a sequence of boundary events. -/
def runAv (sin cos : ℚ → ℚ) (a : RobotAvatar) : List AvEvent → RobotAvatar
  | [] => a
  | .enq ws :: es => runAv sin cos (a.triggerAnimation ws) es
  | .tick now time rl rr :: es =>
      runAv sin cos (a.animate sin cos rl rr now time) es

/-- The slot that a tick at wall-clock `now` begins from state `a`:
empty unless the avatar is idle with a non-empty queue whose front
token is truthy; the slot records the token, its start time, and the
end time the sequencer will record (`now + duration`). -/
def startedNow (a : RobotAvatar) (now : ℚ) : List (String × ℚ × ℚ) :=
  if a.isAnimating then []
  else
    match a.animationQueue with
    | [] => []
    | next :: _ =>
        if next = "" then []
        else [(next, now, now + RobotAvatar.durationOf next)]

/-- The playback log of a run: every slot that was begun, in order. -/
def runLog (sin cos : ℚ → ℚ) (a : RobotAvatar) :
    List AvEvent → List (String × ℚ × ℚ)
  | [] => []
  | .enq ws :: es => runLog sin cos (a.triggerAnimation ws) es
  | .tick now time rl rr :: es =>
      startedNow a now ++ runLog sin cos (a.animate sin cos rl rr now time) es

/-- The front token a tick consumes from state `a` (also the falsy
empty token, which is shifted but never started). -/
def dequeuedNow (a : RobotAvatar) : List String :=
  if a.isAnimating then []
  else
    match a.animationQueue with
    | [] => []
    | next :: _ => [next]

/-- All tokens a run pops off the queue, in order. -/
def runDequeued (sin cos : ℚ → ℚ) (a : RobotAvatar) :
    List AvEvent → List String
  | [] => []
  | .enq ws :: es => runDequeued sin cos (a.triggerAnimation ws) es
  | .tick now time rl rr :: es =>
      dequeuedNow a ++ runDequeued sin cos (a.animate sin cos rl rr now time) es

/-- Concatenation of all tokens the events enqueue. -/
def enqueuedOf : List AvEvent → List String
  | [] => []
  | .enq ws :: es => ws ++ enqueuedOf es
  | .tick _ _ _ _ :: es => enqueuedOf es

/-- The wall clocks of the tick events are bounded below by `m` and
nondecreasing along the list. -/
def nowsLB (m : ℚ) : List AvEvent → Bool
  | [] => true
  | .enq _ :: es => nowsLB m es
  | .tick now _ _ _ :: es => decide (m ≤ now) && nowsLB now es

/-- The event list contains no further enqueue. -/
def ticksOnly : List AvEvent → Bool
  | [] => true
  | .enq _ :: _ => false
  | .tick _ _ _ _ :: es => ticksOnly es

/-- Every keyword the updateLogic switch matches literally: the
`KEYBOARD` case plus the catalog labels.  A tag outside this list
(other than `IDLE`/`POSE`) falls to the `default:` branch. -/
def catalogKeywords : List String :=
  "KEYBOARD" :: gestureCatalog.map Prod.fst

/-- The rest state of the avatar the spec calls "returned to rest":
playback off, both animation-state tags `IDLE`, no visible label, and
an empty queue. -/
def idleP (a : RobotAvatar) : Prop :=
  a.isAnimating = false ∧ a.leftHand.animState = "IDLE" ∧
    a.rightHand.animState = "IDLE" ∧ a.visibleSign = "" ∧
    a.animationQueue = []

/-- The sequencer invariant carried along a run.  `q0` is every token
ever put in the queue, `log` the slots begun so far, `processed` the
tokens popped so far, and `m` a lower bound on all upcoming wall-clock
readings.  It packages: FIFO bookkeeping (the queue is the unprocessed
suffix and the log is the truthy processed tokens in order), the
no-overlap chain on the log, and the end-time facts that keep the
chain extendable. -/
def SeqInv (q0 : List String) (m : ℚ) (a : RobotAvatar)
    (log : List (String × ℚ × ℚ)) (processed : List String) : Prop :=
  q0 = processed ++ a.animationQueue ∧
  log.map (fun s => s.1) = processed.filter (fun t => t ≠ "") ∧
  List.Chain' (fun s1 s2 => s1.2.2 ≤ s2.2.1) log ∧
  (a.isAnimating = true →
     ∃ s, log.getLast? = some s ∧ s.2.2 = a.currentAnimationEnd) ∧
  (a.isAnimating = false →
     log = [] ∨ ∃ s, log.getLast? = some s ∧ s.2.2 < m)

/-!
Proofs.  First a collection of small shared lemmas about the
embedding, then one theorem per claim of the specification.
-/

theorem jsLerp_none_left (e : JSNum) (amt : ℚ) : jsLerp none e amt = none := by
  cases e <;> rfl

theorem jsLerp_none_right (s : JSNum) (amt : ℚ) : jsLerp s none amt = none := by
  cases s <;> rfl

theorem updateLogic_currentState (sin cos : ℚ → ℚ) (rand : ℕ → ℚ)
    (time : ℚ) (h : RobotHand) :
    (h.updateLogic sin cos rand time).currentState = h.currentState := rfl

theorem updateLogic_animState (sin cos : ℚ → ℚ) (rand : ℕ → ℚ)
    (time : ℚ) (h : RobotHand) :
    (h.updateLogic sin cos rand time).animState = h.animState := rfl

theorem update_animState (sin cos : ℚ → ℚ) (rand : ℕ → ℚ)
    (time : ℚ) (h : RobotHand) :
    ((h.update sin cos rand time).1).animState = h.animState := by
  unfold RobotHand.update
  dsimp only
  split <;> rfl

/-- Claim C9: the Pose Library has exactly 36 entries, keyed by the
lowercase letters a-z and the digits 0-9 in that order; looking up any
other key reports not found; and the digit 0 entry equals the letter o
entry. -/
theorem claim_C9 :
    ASL_ALPHABET.length = 36 ∧
    ASL_ALPHABET.map Prod.fst =
      ["a", "b", "c", "d", "e", "f", "g", "h", "i", "j", "k", "l", "m",
       "n", "o", "p", "q", "r", "s", "t", "u", "v", "w", "x", "y", "z",
       "0", "1", "2", "3", "4", "5", "6", "7", "8", "9"] ∧
    (∀ k : String, k ∉ ASL_ALPHABET.map Prod.fst → aslLookup k = none) ∧
    aslLookup "0" = aslLookup "o" := by
  refine ⟨rfl, rfl, ?_, rfl⟩
  intro k hk
  have hfind : ASL_ALPHABET.find? (fun p => p.1 = k) = none := by
    rw [List.find?_eq_none]
    intro x hx
    simp only [decide_eq_true_eq]
    intro hxk
    exact hk (hxk ▸ List.mem_map_of_mem Prod.fst hx)
  simp [aslLookup, hfind]

/-- Witness for C9 at the concrete key "?". -/
theorem claim_C9_witness :
    ("?" ∉ ASL_ALPHABET.map Prod.fst) ∧ aslLookup "?" = none :=
  ⟨by decide, claim_C9.2.2.1 "?" (by decide)⟩

theorem lerpIter_sub (c t : ℚ) (n : ℕ) :
    lerpIter t c n - t = (3 / 4) ^ n * (c - t) := by
  induction n with
  | zero => simp [lerpIter]
  | succ n ih =>
      have hstep : lerpIter t c (n + 1) = lerp (lerpIter t c n) t 0.25 := rfl
      rw [hstep, pow_succ]
      unfold lerp
      linear_combination (3 / 4) * ih

/-- Claim C5: `updateLerp` moves every component of the current pose
toward the target by the rule current + 0.25 * (target - current)
(which is what the source lerp computes), independently for the three
wrist axes and five curls; consequently, toward a constant target the
per-component distance never increases, the value never overshoots
past the target, and it comes within every positive epsilon after
finitely many ticks. -/
theorem claim_C5 :
    (∀ c t : ℚ, lerp c t 0.25 = c + 0.25 * (t - c)) ∧
    (∀ (h : RobotHand) (f : Finger),
       (h.updateLerp).currentState.fingerCurls.get f =
         jsLerp (h.currentState.fingerCurls.get f)
           (h.targetState.fingerCurls.get f) 0.25) ∧
    (∀ h : RobotHand,
       (h.updateLerp).currentState.wristRot.x =
         jsLerp h.currentState.wristRot.x h.targetState.wristRot.x 0.25 ∧
       (h.updateLerp).currentState.wristRot.y =
         jsLerp h.currentState.wristRot.y h.targetState.wristRot.y 0.25 ∧
       (h.updateLerp).currentState.wristRot.z =
         jsLerp h.currentState.wristRot.z h.targetState.wristRot.z 0.25) ∧
    (∀ c t : ℚ, |lerp c t 0.25 - t| ≤ |c - t|) ∧
    (∀ c t : ℚ,
       (c ≤ t → c ≤ lerp c t 0.25 ∧ lerp c t 0.25 ≤ t) ∧
       (t ≤ c → t ≤ lerp c t 0.25 ∧ lerp c t 0.25 ≤ c)) ∧
    (∀ c t ε : ℚ, 0 < ε → ∃ n : ℕ, |lerpIter t c n - t| < ε) := by
  refine ⟨?_, ?_, ?_, ?_, ?_, ?_⟩
  · intro c t; unfold lerp; ring
  · intro h f; cases f <;> rfl
  · intro h; exact ⟨rfl, rfl, rfl⟩
  · intro c t
    have h1 : lerp c t 0.25 - t = (3 / 4) * (c - t) := by unfold lerp; ring
    rw [h1, abs_mul]
    have h2 : |(3 / 4 : ℚ)| = 3 / 4 := by norm_num
    rw [h2]
    exact mul_le_of_le_one_left (abs_nonneg _) (by norm_num)
  · intro c t
    unfold lerp
    constructor <;> intro hct <;> constructor <;> nlinarith
  · intro c t ε hε
    rcases eq_or_ne (c - t) 0 with hct | hct
    · exact ⟨0, by simpa [lerpIter, sub_eq_zero.mp hct] using hε⟩
    · have habs : 0 < |c - t| := abs_pos.mpr hct
      obtain ⟨n, hn⟩ :=
        exists_pow_lt_of_lt_one (div_pos hε habs) (by norm_num : (3 / 4 : ℚ) < 1)
      refine ⟨n, ?_⟩
      rw [lerpIter_sub, abs_mul, abs_pow]
      have h34 : |(3 / 4 : ℚ)| = 3 / 4 := by norm_num
      rw [h34]
      calc (3 / 4 : ℚ) ^ n * |c - t| < ε / |c - t| * |c - t| := by
            exact mul_lt_mul_of_pos_right hn habs
        _ = ε := div_mul_cancel₀ ε (ne_of_gt habs)

/-- Witness for C5 at concrete inputs (current 1, target 0, ε = 1/10). -/
theorem claim_C5_witness :
    ((1 : ℚ) ≤ 1 ∧ (0 : ℚ) < 1 / 10) ∧
    ((1 : ℚ) ≤ lerp 1 1 0.25 ∧ lerp 1 1 0.25 ≤ 1) ∧
    (∃ n : ℕ, |lerpIter 0 1 n - 0| < 1 / 10) :=
  ⟨⟨le_refl 1, by norm_num⟩,
   (claim_C5.2.2.2.2.1 1 1).1 (le_refl 1),
   claim_C5.2.2.2.2.2 1 0 (1 / 10) (by norm_num)⟩

/-- Claim C7: whenever any of the three wrist-rotation components of
the current state is NaN as a tick runs, the tick detects it after the
interpolation, resets the current wrist rotation to (0,0,0), reports
the warning, and still completes: the mesh joints receive the reset
wrist rotation and the finger curls as usual. -/
theorem claim_C7 (sin cos : ℚ → ℚ) (rand : ℕ → ℚ) (time : ℚ)
    (h : RobotHand)
    (hnan : h.currentState.wristRot.x = none ∨
      h.currentState.wristRot.y = none ∨ h.currentState.wristRot.z = none) :
    (h.update sin cos rand time).1.currentState.wristRot = Euler3.zero ∧
    (h.update sin cos rand time).2 = true ∧
    (h.update sin cos rand time).1.mesh.wristRot = Euler3.zero ∧
    ∀ f : Finger,
      (h.update sin cos rand time).1.mesh.fingerSegs.get f =
        List.replicate 3
          ((h.update sin cos rand time).1.currentState.fingerCurls.get f) := by
  have hx : ((h.updateLogic sin cos rand time).updateLerp).currentState.wristRot.x = none ∨
      ((h.updateLogic sin cos rand time).updateLerp).currentState.wristRot.y = none ∨
      ((h.updateLogic sin cos rand time).updateLerp).currentState.wristRot.z = none := by
    rcases hnan with hn | hn | hn
    · left
      show jsLerp h.currentState.wristRot.x
        ((h.updateLogic sin cos rand time).targetState.wristRot.x) 0.25 = none
      rw [hn, jsLerp_none_left]
    · right; left
      show jsLerp h.currentState.wristRot.y
        ((h.updateLogic sin cos rand time).targetState.wristRot.y) 0.25 = none
      rw [hn, jsLerp_none_left]
    · right; right
      show jsLerp h.currentState.wristRot.z
        ((h.updateLogic sin cos rand time).targetState.wristRot.z) 0.25 = none
      rw [hn, jsLerp_none_left]
  have hdec : decide
      (((h.updateLogic sin cos rand time).updateLerp).currentState.wristRot.x = none ∨
       ((h.updateLogic sin cos rand time).updateLerp).currentState.wristRot.y = none ∨
       ((h.updateLogic sin cos rand time).updateLerp).currentState.wristRot.z = none) = true :=
    decide_eq_true hx
  unfold RobotHand.update
  dsimp only
  rw [if_pos hdec]
  refine ⟨rfl, hdec, rfl, ?_⟩
  intro f
  cases f <;> rfl

/-- Witness for C7: a right hand with NaN injected into the wrist x
rotation, ticked at time 0 with zero sine and random streams. -/
theorem claim_C7_witness :
    ({ RobotHand.build "right" with
        currentState := { PoseState.init with
          wristRot := ⟨none, some 0, some 0⟩ } } :
        RobotHand).currentState.wristRot.x = none ∧
    (({ RobotHand.build "right" with
        currentState := { PoseState.init with
          wristRot := ⟨none, some 0, some 0⟩ } } :
        RobotHand).update (fun _ => 0) (fun _ => 0) (fun _ => 0)
        0).1.currentState.wristRot = Euler3.zero :=
  ⟨rfl,
   (claim_C7 (fun _ => 0) (fun _ => 0) (fun _ => 0) 0 _ (Or.inl rfl)).1⟩

theorem applyToMesh_segs (x : RobotHand) (f : Finger) :
    (x.applyToMesh).mesh.fingerSegs.get f =
      List.replicate 3 (x.currentState.fingerCurls.get f) := by
  cases f <;> rfl

/-- Claim C10 (amended): NaN recovery never covers finger curls.  A
NaN in a CURRENT finger curl survives every tick (the interpolation
absorbs it and the NaN check touches only the wrist rotation), and the
NaN value is written onto all three segments of that finger; this
holds along arbitrary tick sequences.  A NaN in a TARGET curl,
however, does not in general survive: updateLogic recomputes targets
before the interpolation, so a tag whose branch rewrites that finger
(e.g. `IDLE`) clears the target NaN within the same tick — the
counterexample below.  The second conjunct states that the NaN reset
leaves the finger curls exactly as the interpolation produced them. -/
theorem claim_C10 (sin cos : ℚ → ℚ) (f : Finger) :
    (∀ (rand : ℕ → ℚ) (time : ℚ) (h : RobotHand),
       h.currentState.fingerCurls.get f = none →
       (h.update sin cos rand time).1.currentState.fingerCurls.get f = none ∧
       (h.update sin cos rand time).1.mesh.fingerSegs.get f =
         List.replicate 3 (none : JSNum)) ∧
    (∀ (rand : ℕ → ℚ) (time : ℚ) (h : RobotHand),
       (h.update sin cos rand time).1.currentState.fingerCurls =
         ((h.updateLogic sin cos rand time).updateLerp).currentState.fingerCurls) ∧
    (∀ (h : RobotHand) (inputs : List TickIn),
       h.currentState.fingerCurls.get f = none →
       ∀ h' ∈ tickTrace sin cos h inputs,
         h'.currentState.fingerCurls.get f = none) := by
  have key : ∀ (rand : ℕ → ℚ) (time : ℚ) (h : RobotHand),
      h.currentState.fingerCurls.get f = none →
      ((h.updateLogic sin cos rand time).updateLerp).currentState.fingerCurls.get f = none := by
    intro rand time h hn
    have hlerp : ((h.updateLogic sin cos rand time).updateLerp).currentState.fingerCurls.get f =
        jsLerp (h.currentState.fingerCurls.get f)
          ((h.updateLogic sin cos rand time).targetState.fingerCurls.get f) 0.25 := by
      cases f <;> rfl
    rw [hlerp, hn, jsLerp_none_left]
  have upd_curl : ∀ (rand : ℕ → ℚ) (time : ℚ) (h : RobotHand),
      h.currentState.fingerCurls.get f = none →
      (h.update sin cos rand time).1.currentState.fingerCurls.get f = none := by
    intro rand time h hn
    have hcurl := key rand time h hn
    unfold RobotHand.update
    dsimp only
    split
    · exact hcurl
    · exact hcurl
  refine ⟨?_, ?_, ?_⟩
  · intro rand time h hn
    refine ⟨upd_curl rand time h hn, ?_⟩
    have hcurl := key rand time h hn
    unfold RobotHand.update
    dsimp only
    split
    · rw [applyToMesh_segs]
      exact congrArg (List.replicate 3) hcurl
    · rw [applyToMesh_segs]
      exact congrArg (List.replicate 3) hcurl
  · intro rand time h
    unfold RobotHand.update
    dsimp only
    split <;> rfl
  · intro h inputs
    induction inputs generalizing h with
    | nil => intro hn h' hh'; simp [tickTrace] at hh'
    | cons input rest ih =>
        obtain ⟨now, time, rand⟩ := input
        intro hn h' hh'
        simp only [tickTrace, List.mem_cons] at hh'
        rcases hh' with rfl | hh'
        · exact upd_curl rand time h hn
        · exact ih _ (upd_curl rand time h hn) h' hh'

/-- Witness for C10 at a concrete hand with NaN in the current thumb
curl. -/
theorem claim_C10_witness :
    ({ RobotHand.build "right" with
        currentState := { PoseState.init with
          fingerCurls := { PoseState.init.fingerCurls with thumb := none } } } :
        RobotHand).currentState.fingerCurls.get .thumb = none ∧
    (({ RobotHand.build "right" with
        currentState := { PoseState.init with
          fingerCurls := { PoseState.init.fingerCurls with thumb := none } } } :
        RobotHand).update (fun _ => 0) (fun _ => 0) (fun _ => 0)
        0).1.currentState.fingerCurls.get .thumb = none :=
  ⟨rfl,
   ((claim_C10 (fun _ => 0) (fun _ => 0) .thumb).1 (fun _ => 0) 0
      { RobotHand.build "right" with
        currentState := { PoseState.init with
          fingerCurls := { PoseState.init.fingerCurls with thumb := none } } }
      rfl).1⟩

/-- Counterexample to C10 as stated: a NaN injected into the TARGET
thumb curl of an `IDLE` hand does not survive the tick — updateLogic
rewrites the thumb target (idle sway puts 0.1 there at time 0 with the
zero sine stream, exactly as IEEE Math.sin(0) = 0) before the
interpolation runs, so the current thumb curl ends the tick at the
finite value 0.025, not NaN. -/
theorem claim_C10_counterexample :
    ({ RobotHand.build "right" with
        targetState := { PoseState.init with
          fingerCurls := { PoseState.init.fingerCurls with thumb := none } } } :
        RobotHand).targetState.fingerCurls.get .thumb = none ∧
    (({ RobotHand.build "right" with
        targetState := { PoseState.init with
          fingerCurls := { PoseState.init.fingerCurls with thumb := none } } } :
        RobotHand).update (fun _ => 0) (fun _ => 0) (fun _ => 0)
        0).1.targetState.fingerCurls.get .thumb = some 0.1 ∧
    (({ RobotHand.build "right" with
        targetState := { PoseState.init with
          fingerCurls := { PoseState.init.fingerCurls with thumb := none } } } :
        RobotHand).update (fun _ => 0) (fun _ => 0) (fun _ => 0)
        0).1.currentState.fingerCurls.get .thumb = some 0.025 := by
  refine ⟨rfl, ?_, ?_⟩ <;>
    · simp only [RobotHand.update, RobotHand.updateLogic, updateLogicTargets, idleSway,
        PoseState.setFace, PoseState.setWrist, FingerCurls.set, RobotHand.updateLerp,
        jsLerp, lerp, RobotHand.applyToMesh, FingerCurls.get, RobotHand.build,
        PoseState.init, Euler3.zero, MeshState.init]
      norm_num

/-- Claim C3: for a `CHAR_*` token whose letter is found in the Pose
Library, begin-playback records the short 400 ms slot (shorter than
the fixed 800 ms slot every plain-word token gets), poses only the
right hand via `poseHand`, and forces the left hand tag to `IDLE`
without touching its pose targets; when the lookup fails both hands
are skipped entirely, yet the sign display still updates to the
letter.  The display updates in both cases. -/
theorem claim_C3 (a : RobotAvatar) (now : ℚ) :
    (∀ type : String, jsStartsWith type "CHAR_" = true →
       (∀ pose, aslLookup (jsToLower (jsToUpper ((jsSplitOn type '_').getD 1 ""))) = some pose →
          (a.startAnimation type now).currentAnimationEnd = now + 400 ∧
          (a.startAnimation type now).rightHand = a.rightHand.poseHand pose ∧
          (a.startAnimation type now).leftHand =
            a.leftHand.triggerAnimation "IDLE" now ∧
          (a.startAnimation type now).leftHand.animState = "IDLE" ∧
          (a.startAnimation type now).leftHand.targetState = a.leftHand.targetState ∧
          (a.startAnimation type now).leftHand.currentState = a.leftHand.currentState) ∧
       (aslLookup (jsToLower (jsToUpper ((jsSplitOn type '_').getD 1 ""))) = none →
          (a.startAnimation type now).leftHand = a.leftHand ∧
          (a.startAnimation type now).rightHand = a.rightHand ∧
          (a.startAnimation type now).currentAnimationEnd = now + 800) ∧
       ((a.startAnimation type now).isAnimating = true ∧
        (a.startAnimation type now).signText = jsToUpper ((jsSplitOn type '_').getD 1 "") ∧
        (a.startAnimation type now).signVisible = true)) ∧
    (∀ w : String, jsStartsWith w "CHAR_" = false →
       (a.startAnimation w now).currentAnimationEnd = now + 800) ∧
    (400 : ℚ) < 800 := by
  refine ⟨?_, ?_, by norm_num⟩
  · intro type htype
    refine ⟨?_, ?_, ?_⟩
    · intro pose hpose
      unfold RobotAvatar.startAnimation
      rw [if_pos htype]
      dsimp only
      rw [hpose]
      exact ⟨rfl, rfl, rfl, rfl, rfl, rfl⟩
    · intro hpose
      unfold RobotAvatar.startAnimation
      rw [if_pos htype]
      dsimp only
      rw [hpose]
      exact ⟨rfl, rfl, rfl⟩
    · unfold RobotAvatar.startAnimation
      rw [if_pos htype]
      dsimp only
      cases hl : aslLookup (jsToLower (jsToUpper ((jsSplitOn type '_').getD 1 ""))) with
      | none => exact ⟨rfl, rfl, rfl⟩
      | some pose => exact ⟨rfl, rfl, rfl⟩
  · intro w hw
    unfold RobotAvatar.startAnimation
    rw [if_neg (by simp [hw])]

/-- Witness for C3 at the concrete token CHAR_A (library hit) and the
word token HELLO. -/
theorem claim_C3_witness :
    (jsStartsWith "CHAR_A" "CHAR_" = true ∧
     aslLookup (jsToLower (jsToUpper ((jsSplitOn "CHAR_A" '_').getD 1 ""))) =
       some ⟨0.1, 1.5, 1.5, 1.5, 1.5⟩ ∧
     jsStartsWith "HELLO" "CHAR_" = false) ∧
    (RobotAvatar.build.startAnimation "CHAR_A" 0).currentAnimationEnd = 0 + 400 ∧
    (RobotAvatar.build.startAnimation "HELLO" 0).currentAnimationEnd = 0 + 800 :=
  ⟨⟨rfl, rfl, rfl⟩,
   (((claim_C3 RobotAvatar.build 0).1 "CHAR_A" rfl).1 ⟨0.1, 1.5, 1.5, 1.5, 1.5⟩ rfl).1,
   (claim_C3 RobotAvatar.build 0).2.1 "HELLO" rfl⟩

theorem update_startTime_comm (sin cos : ℚ → ℚ) (rand : ℕ → ℚ) (time : ℚ)
    (h : RobotHand) (x : ℚ) :
    (RobotHand.update sin cos rand time { h with animStartTime := x }).1 =
    { (RobotHand.update sin cos rand time h).1 with animStartTime := x } := by
  cases h with
  | mk side tgt cur anim st mesh =>
      unfold RobotHand.update RobotHand.updateLogic RobotHand.updateLerp
        RobotHand.applyToMesh
      dsimp only
      split <;> rename_i hc <;> simp only [hc]

theorem trigger_eq_of_animState (h : RobotHand) (tag : String) (now y : ℚ)
    (ht : h.animState = tag) :
    ({ h with animStartTime := y } : RobotHand).triggerAnimation tag now =
      { h with animStartTime := now } := by
  subst ht
  cases h
  rfl

theorem tickTraceRetrig_core (sin cos : ℚ → ℚ) (tag : String) :
    ∀ (inputs : List TickIn) (h : RobotHand) (y : ℚ), h.animState = tag →
      (tickTraceRetrig sin cos tag { h with animStartTime := y } inputs).map
          RobotHand.targetState =
        (tickTrace sin cos h inputs).map RobotHand.targetState ∧
      (tickTraceRetrig sin cos tag { h with animStartTime := y } inputs).map
          RobotHand.currentState =
        (tickTrace sin cos h inputs).map RobotHand.currentState := by
  intro inputs
  induction inputs with
  | nil => intro h y ht; exact ⟨rfl, rfl⟩
  | cons input rest ih =>
      obtain ⟨now, time, rand⟩ := input
      intro h y ht
      have hstep :
          ((({ h with animStartTime := y } : RobotHand).triggerAnimation tag
              now).update sin cos rand time).1 =
          { (h.update sin cos rand time).1 with animStartTime := now } := by
        rw [trigger_eq_of_animState h tag now y ht]
        exact update_startTime_comm sin cos rand time h now
      have hanim : ((h.update sin cos rand time).1).animState = tag := by
        rw [update_animState]; exact ht
      have htail := ih (h.update sin cos rand time).1 now hanim
      constructor
      · show _ :: _ = _ :: _
        rw [hstep]
        exact congrArg (_ :: ·) htail.1
      · show _ :: _ = _ :: _
        rw [hstep]
        exact congrArg (_ :: ·) htail.2

/-- Claim C2 (amended): `triggerGesture` changes no pose state by
itself; re-triggering the same tag between ticks yields exactly the
target- and current-pose trajectories of a single trigger followed by
plain ticking (the trigger time it records is never read back); and
the target pose a tick computes is a pure function of
(tag, elapsedTime) for every tag except `KEYBOARD` — the one case
whose finger targets read Math.random, refuted as stated by the
counterexample below. -/
theorem claim_C2 (sin cos : ℚ → ℚ) :
    (∀ (h : RobotHand) (tag : String) (now : ℚ),
       (h.triggerAnimation tag now).targetState = h.targetState ∧
       (h.triggerAnimation tag now).currentState = h.currentState ∧
       (h.triggerAnimation tag now).mesh = h.mesh) ∧
    (∀ (h : RobotHand) (tag : String) (now0 : ℚ) (inputs : List TickIn),
       (tickTraceRetrig sin cos tag (h.triggerAnimation tag now0) inputs).map
           RobotHand.targetState =
         (tickTrace sin cos (h.triggerAnimation tag now0) inputs).map
           RobotHand.targetState ∧
       (tickTraceRetrig sin cos tag (h.triggerAnimation tag now0) inputs).map
           RobotHand.currentState =
         (tickTrace sin cos (h.triggerAnimation tag now0) inputs).map
           RobotHand.currentState) ∧
    (∀ tag : String, tag ≠ "KEYBOARD" →
       ∀ (r1 r2 : ℕ → ℚ) (time : ℚ) (s : PoseState),
         updateLogicTargets sin cos r1 tag time s =
           updateLogicTargets sin cos r2 tag time s) := by
  refine ⟨fun h tag now => ⟨rfl, rfl, rfl⟩, ?_, ?_⟩
  · intro h tag now0 inputs
    exact tickTraceRetrig_core sin cos tag inputs
      { h with animState := tag, animStartTime := now0 } now0 rfl
  · intro tag htag r1 r2 time s
    unfold updateLogicTargets
    by_cases h1 : tag = "IDLE" ∨ tag = "POSE"
    · rw [if_pos h1, if_pos h1]
    · rw [if_neg h1, if_neg h1, if_neg htag, if_neg htag]

/-- Witness for C2 at the tag HELLO with two different random
streams. -/
theorem claim_C2_witness :
    ("HELLO" ≠ "KEYBOARD") ∧
    updateLogicTargets (fun _ => 0) (fun _ => 0) (fun _ => 0) "HELLO" 0
        PoseState.init =
      updateLogicTargets (fun _ => 0) (fun _ => 0) (fun _ => 1) "HELLO" 0
        PoseState.init :=
  ⟨by decide,
   (claim_C2 (fun _ => 0) (fun _ => 0)).2.2 "HELLO" (by decide)
     (fun _ => 0) (fun _ => 1) 0 PoseState.init⟩

/-- Counterexample to C2 as stated: for the tag KEYBOARD the target
pose computed by a tick is NOT a pure function of (tag, elapsedTime) —
two runs whose Math.random draws differ (all-zero vs all-one streams)
produce different index-finger targets at the same tag and time. -/
theorem claim_C2_counterexample :
    updateLogicTargets (fun _ => 0) (fun _ => 0) (fun _ => 0) "KEYBOARD" 0
        PoseState.init ≠
      updateLogicTargets (fun _ => 0) (fun _ => 0) (fun _ => 1) "KEYBOARD" 0
        PoseState.init := by
  intro heq
  have h2 := congrArg (fun s => s.fingerCurls.index) heq
  have h3 : (some (0.2 + 0 * 0.3 : ℚ) : JSNum) =
      some (0.2 + 1 * 0.3 : ℚ) := h2
  norm_num at h3

theorem catalog_find?_eq_none {tag : String} (hcat : tag ∉ catalogKeywords) :
    gestureCatalog.find? (fun p => p.1 = tag) = none := by
  rw [List.find?_eq_none]
  intro x hx
  simp only [decide_eq_true_eq]
  intro hx1
  exact hcat (List.mem_cons_of_mem _ (hx1 ▸ List.mem_map_of_mem Prod.fst hx))

/-- Claim C8: for a tag that matches no catalog keyword and is neither
IDLE nor POSE, the tick target is a deterministic function of the tag
string and the elapsed time alone — independent of the random stream —
namely the procedural fallback, whose motion archetype is selected by
the char code of the first character mod 4 (wave / point / fist /
thumbs) and whose oscillation speed is 4 + (tag length mod 5). -/
theorem claim_C8 (sin cos : ℚ → ℚ) (tag : String)
    (hcat : tag ∉ catalogKeywords) (hidle : tag ≠ "IDLE")
    (hpose : tag ≠ "POSE") :
    (∀ (r1 r2 : ℕ → ℚ) (time : ℚ) (s : PoseState),
       updateLogicTargets sin cos r1 tag time s =
         updateLogicTargets sin cos r2 tag time s) ∧
    (∀ (rand : ℕ → ℚ) (time : ℚ) (s : PoseState),
       updateLogicTargets sin cos rand tag time s =
         defaultTargets sin tag time s) ∧
    (∀ (c : Char) (cs : List Char), tag.data = c :: cs →
       ∀ (rand : ℕ → ℚ) (time : ℚ) (s : PoseState),
         updateLogicTargets sin cos rand tag time s =
           (let speed : ℚ := 4 + (tag.length % 5 : ℕ)
            let motion := sin (time * speed) * 0.5
            if c.toNat % 4 = 0 then (s.setWrist motion 0 (motion * 0.5)).flatHand
            else if c.toNat % 4 = 1 then
              (s.setWrist 0 (motion * 0.5) motion).pointIndex
            else if c.toNat % 4 = 2 then (s.setWrist (motion * 0.7) 0 0).fist
            else (s.setWrist 0 motion (motion * 0.3)).thumbsUp)) := by
  have hkb : tag ≠ "KEYBOARD" := fun h => hcat (h ▸ List.mem_cons_self _ _)
  have hor : ¬(tag = "IDLE" ∨ tag = "POSE") := by
    rintro (h | h)
    · exact hidle h
    · exact hpose h
  have hdefault : ∀ (rand : ℕ → ℚ) (time : ℚ) (s : PoseState),
      updateLogicTargets sin cos rand tag time s =
        defaultTargets sin tag time s := by
    intro rand time s
    unfold updateLogicTargets
    rw [if_neg hor, if_neg hkb, catalog_find?_eq_none hcat]
  refine ⟨?_, hdefault, ?_⟩
  · intro r1 r2 time s
    rw [hdefault r1 time s, hdefault r2 time s]
  · intro c cs hdata rand time s
    rw [hdefault rand time s]
    unfold defaultTargets
    rw [hdata]

/-- Witness for C8 at the concrete tag QQQQ (not a keyword; Q has char
code 81, 81 mod 4 = 1, so the pointing archetype). -/
theorem claim_C8_witness :
    ("QQQQ" ∉ catalogKeywords) ∧
    updateLogicTargets (fun _ => 0) (fun _ => 0) (fun _ => 0) "QQQQ" 0
        PoseState.init =
      defaultTargets (fun _ => 0) "QQQQ" 0 PoseState.init :=
  ⟨by decide,
   (claim_C8 (fun _ => 0) (fun _ => 0) "QQQQ" (by decide) (by decide)
     (by decide)).2.1 (fun _ => 0) 0 PoseState.init⟩

theorem startAnimation_isAnimating (a : RobotAvatar) (t : String) (now : ℚ) :
    (a.startAnimation t now).isAnimating = true := by
  unfold RobotAvatar.startAnimation
  dsimp only
  split
  · split <;> rfl
  · rfl

theorem startAnimation_queue (a : RobotAvatar) (t : String) (now : ℚ) :
    (a.startAnimation t now).animationQueue = a.animationQueue := by
  unfold RobotAvatar.startAnimation
  dsimp only
  split
  · split <;> rfl
  · rfl

theorem startAnimation_end (a : RobotAvatar) (t : String) (now : ℚ) :
    (a.startAnimation t now).currentAnimationEnd =
      now + RobotAvatar.durationOf t := by
  unfold RobotAvatar.startAnimation RobotAvatar.durationOf
  dsimp only
  split
  · split <;> rfl
  · rfl

theorem durationOf_pos (t : String) : 0 < RobotAvatar.durationOf t := by
  unfold RobotAvatar.durationOf
  split
  · split <;> norm_num
  · norm_num

theorem animate_busy_noend (sin cos : ℚ → ℚ) (rl rr : ℕ → ℚ) (now time : ℚ)
    (a : RobotAvatar) (h1 : a.isAnimating = true)
    (h2 : ¬now > a.currentAnimationEnd) :
    a.animate sin cos rl rr now time =
      { a with leftHand := (a.leftHand.update sin cos rl time).1,
               rightHand := (a.rightHand.update sin cos rr time).1 } := by
  unfold RobotAvatar.animate
  dsimp only
  rw [if_pos h1, if_neg (fun hc => h2 hc.2)]

theorem animate_busy_end_empty (sin cos : ℚ → ℚ) (rl rr : ℕ → ℚ)
    (now time : ℚ) (a : RobotAvatar) (h1 : a.isAnimating = true)
    (h2 : now > a.currentAnimationEnd) (h3 : a.animationQueue = []) :
    a.animate sin cos rl rr now time =
      { a with isAnimating := false, signVisible := false,
               leftHand := ((a.leftHand.triggerAnimation "IDLE" now).update
                 sin cos rl time).1,
               rightHand := ((a.rightHand.triggerAnimation "IDLE" now).update
                 sin cos rr time).1 } := by
  unfold RobotAvatar.animate
  dsimp only
  rw [if_pos h1, if_pos ⟨h1, h2⟩, if_pos h3]
  rfl

theorem animate_busy_end_nonempty (sin cos : ℚ → ℚ) (rl rr : ℕ → ℚ)
    (now time : ℚ) (a : RobotAvatar) (h1 : a.isAnimating = true)
    (h2 : now > a.currentAnimationEnd) (h3 : a.animationQueue ≠ []) :
    a.animate sin cos rl rr now time =
      { a with isAnimating := false,
               leftHand := (a.leftHand.update sin cos rl time).1,
               rightHand := (a.rightHand.update sin cos rr time).1 } := by
  unfold RobotAvatar.animate
  dsimp only
  rw [if_pos h1, if_pos ⟨h1, h2⟩, if_neg h3]

theorem animate_idle_empty (sin cos : ℚ → ℚ) (rl rr : ℕ → ℚ) (now time : ℚ)
    (a : RobotAvatar) (h1 : a.isAnimating = false)
    (h2 : a.animationQueue = []) :
    a.animate sin cos rl rr now time =
      { a with leftHand := (a.leftHand.update sin cos rl time).1,
               rightHand := (a.rightHand.update sin cos rr time).1 } := by
  obtain ⟨q, ia, ce, stx, sv, lh, rh⟩ := a
  dsimp only at h1 h2
  subst h1
  subst h2
  rfl

theorem animate_idle_falsy (sin cos : ℚ → ℚ) (rl rr : ℕ → ℚ) (now time : ℚ)
    (a : RobotAvatar) (rest : List String) (h1 : a.isAnimating = false)
    (h2 : a.animationQueue = "" :: rest) :
    a.animate sin cos rl rr now time =
      { a with animationQueue := rest,
               leftHand := (a.leftHand.update sin cos rl time).1,
               rightHand := (a.rightHand.update sin cos rr time).1 } := by
  obtain ⟨q, ia, ce, stx, sv, lh, rh⟩ := a
  dsimp only at h1 h2
  subst h1
  subst h2
  rfl

theorem animate_idle_start (sin cos : ℚ → ℚ) (rl rr : ℕ → ℚ) (now time : ℚ)
    (a : RobotAvatar) (t : String) (rest : List String)
    (h1 : a.isAnimating = false) (h2 : a.animationQueue = t :: rest)
    (h3 : t ≠ "") :
    a.animate sin cos rl rr now time =
      { RobotAvatar.startAnimation { a with animationQueue := rest } t now with
          leftHand := ((RobotAvatar.startAnimation
            { a with animationQueue := rest } t now).leftHand.update
              sin cos rl time).1,
          rightHand := ((RobotAvatar.startAnimation
            { a with animationQueue := rest } t now).rightHand.update
              sin cos rr time).1 } := by
  obtain ⟨q, ia, ce, stx, sv, lh, rh⟩ := a
  dsimp only at h1 h2
  subst h1
  subst h2
  unfold RobotAvatar.animate
  dsimp only
  rw [if_neg Bool.false_ne_true]
  rw [if_neg h3]
  rw [if_neg ?hneg]
  case hneg =>
    rintro ⟨-, hgt⟩
    rw [startAnimation_end] at hgt
    have := durationOf_pos t
    linarith

theorem idleP_animate (sin cos : ℚ → ℚ) (rl rr : ℕ → ℚ) (now time : ℚ)
    (a : RobotAvatar) (h : idleP a) :
    idleP (a.animate sin cos rl rr now time) := by
  obtain ⟨h1, h2, h3, h4, h5⟩ := h
  rw [animate_idle_empty sin cos rl rr now time a h1 h5]
  refine ⟨h1, ?_, ?_, ?_, h5⟩
  · show ((a.leftHand.update sin cos rl time).1).animState = "IDLE"
    rw [update_animState]; exact h2
  · show ((a.rightHand.update sin cos rr time).1).animState = "IDLE"
    rw [update_animState]; exact h3
  · show RobotAvatar.visibleSign _ = ""
    unfold RobotAvatar.visibleSign at h4 ⊢
    exact h4

theorem idleP_run (sin cos : ℚ → ℚ) :
    ∀ es : List AvEvent, ticksOnly es = true →
      ∀ a : RobotAvatar, idleP a → idleP (runAv sin cos a es) := by
  intro es
  induction es with
  | nil => intro _ a h; exact h
  | cons e rest ih =>
      cases e with
      | enq ws => intro ht; simp [ticksOnly] at ht
      | tick now time rl rr =>
          intro ht a h
          exact ih (by simpa [ticksOnly] using ht) _
            (idleP_animate sin cos rl rr now time a h)

/-- Claim C6: on the tick at which the current slot has expired and
the queue is empty, the sequencer marks playback off, forces both
animation-state tags to IDLE, and the visible "current sign" label
becomes empty; with no further enqueues all of this persists on every
later tick. -/
theorem claim_C6 (sin cos : ℚ → ℚ) (rl rr : ℕ → ℚ) (now time : ℚ)
    (a : RobotAvatar) (h1 : a.isAnimating = true)
    (h2 : a.animationQueue = []) (h3 : now > a.currentAnimationEnd) :
    idleP (a.animate sin cos rl rr now time) ∧
    ∀ es : List AvEvent, ticksOnly es = true →
      idleP (runAv sin cos (a.animate sin cos rl rr now time) es) := by
  have hstep : idleP (a.animate sin cos rl rr now time) := by
    rw [animate_busy_end_empty sin cos rl rr now time a h1 h3 h2]
    refine ⟨rfl, ?_, ?_, rfl, h2⟩
    · show (((a.leftHand.triggerAnimation "IDLE" now).update sin cos rl
        time).1).animState = "IDLE"
      rw [update_animState]
      rfl
    · show (((a.rightHand.triggerAnimation "IDLE" now).update sin cos rr
        time).1).animState = "IDLE"
      rw [update_animState]
      rfl
  exact ⟨hstep, fun es ht => idleP_run sin cos es ht _ hstep⟩

/-- Witness for C6: an avatar mid-slot with empty queue, ticked past
its recorded end time. -/
theorem claim_C6_witness :
    ({ RobotAvatar.build with
        isAnimating := true,
        currentAnimationEnd := 800 } : RobotAvatar).isAnimating = true ∧
    idleP (({ RobotAvatar.build with
        isAnimating := true,
        currentAnimationEnd := 800 } : RobotAvatar).animate
        (fun _ => 0) (fun _ => 0) (fun _ => 0) (fun _ => 0) 900 1) :=
  ⟨rfl,
   (claim_C6 (fun _ => 0) (fun _ => 0) (fun _ => 0) (fun _ => 0) 900 1
     { RobotAvatar.build with isAnimating := true, currentAnimationEnd := 800 }
     rfl rfl (by norm_num)).1⟩

theorem update_targetState (sin cos : ℚ → ℚ) (rand : ℕ → ℚ) (time : ℚ)
    (h : RobotHand) :
    (h.update sin cos rand time).1.targetState =
      updateLogicTargets sin cos rand h.animState time h.targetState := by
  unfold RobotHand.update
  dsimp only
  split <;> rfl

/-- Claim C1 is violated by the code (code bug): `startAnimation` on a
CHAR token does copy the library pose onto the right-hand targets via
`poseHand` (first conjunct), but the very same frame's `update` runs
`updateLogic` with the tag `POSE`, and the `IDLE`/`POSE` idle-sway
branch overwrites all five finger targets; after the first tick of the
slot the right-hand index target is the idle sway value
0.1 + sin(time+2)*0.05, which is bounded by 0.15 and can never equal
the letter-A index curl 1.5.  The library pose therefore never holds
during the slot ticks. -/
theorem claim_C1 (sin cos : ℚ → ℚ) (rl rr : ℕ → ℚ) (now time : ℚ)
    (hs : |sin (time + 2)| ≤ 1) :
    (RobotAvatar.build.startAnimation "CHAR_A"
        now).rightHand.targetState.fingerCurls.index = some 1.5 ∧
    ((RobotAvatar.build.triggerAnimation ["CHAR_A"]).animate sin cos rl rr
        now time).rightHand.animState = "POSE" ∧
    ((RobotAvatar.build.triggerAnimation ["CHAR_A"]).animate sin cos rl rr
        now time).rightHand.targetState.fingerCurls.index =
      some (0.1 + sin (time + 2) * 0.05) ∧
    ((RobotAvatar.build.triggerAnimation ["CHAR_A"]).animate sin cos rl rr
        now time).rightHand.targetState.fingerCurls.index ≠ some 1.5 := by
  have hrw := animate_idle_start sin cos rl rr now time
    (RobotAvatar.build.triggerAnimation ["CHAR_A"]) "CHAR_A" [] rfl rfl
    (by decide)
  have hmain : ((RobotAvatar.build.triggerAnimation ["CHAR_A"]).animate sin
      cos rl rr now time).rightHand.targetState.fingerCurls.index =
      some (0.1 + sin (time + 2) * 0.05) := by
    rw [hrw]
    show ((RobotHand.update sin cos rr time _).1).targetState.fingerCurls.index
      = some (0.1 + sin (time + 2) * 0.05)
    rw [update_targetState]
    rfl
  refine ⟨rfl, ?_, hmain, ?_⟩
  · rw [hrw]
    show ((RobotHand.update sin cos rr time _).1).animState = "POSE"
    rw [update_animState]
    rfl
  · rw [hmain]
    intro heq
    have h5 : (0.1 + sin (time + 2) * 0.05 : ℚ) = 1.5 := Option.some.inj heq
    have habs := abs_le.mp hs
    have h6 := habs.1
    have h7 := habs.2
    linarith

/-- Witness for C1 with the zero sine stream at time 0 (IEEE
Math.sin(0) is exactly 0, so this matches a real first frame). -/
theorem claim_C1_witness :
    |(fun _ : ℚ => (0 : ℚ)) ((0 : ℚ) + 2)| ≤ 1 ∧
    ((RobotAvatar.build.triggerAnimation ["CHAR_A"]).animate
        (fun _ => 0) (fun _ => 0) (fun _ => 0) (fun _ => 0) 0
        0).rightHand.targetState.fingerCurls.index ≠ some 1.5 :=
  ⟨by norm_num,
   (claim_C1 (fun _ => 0) (fun _ => 0) (fun _ => 0) (fun _ => 0) 0 0
     (by norm_num)).2.2.2⟩

theorem startedNow_eq_busy (a : RobotAvatar) (now : ℚ)
    (h : a.isAnimating = true) : startedNow a now = [] := by
  unfold startedNow
  rw [if_pos h]

theorem startedNow_eq_nil (a : RobotAvatar) (now : ℚ)
    (h1 : a.isAnimating = false) (h2 : a.animationQueue = []) :
    startedNow a now = [] := by
  unfold startedNow
  rw [if_neg (by simp [h1]), h2]

theorem startedNow_eq_falsy (a : RobotAvatar) (now : ℚ) (rest : List String)
    (h1 : a.isAnimating = false) (h2 : a.animationQueue = "" :: rest) :
    startedNow a now = [] := by
  unfold startedNow
  rw [if_neg (by simp [h1]), h2]
  rfl

theorem startedNow_eq_start (a : RobotAvatar) (now : ℚ) (t : String)
    (rest : List String) (h1 : a.isAnimating = false)
    (h2 : a.animationQueue = t :: rest) (h3 : t ≠ "") :
    startedNow a now = [(t, now, now + RobotAvatar.durationOf t)] := by
  unfold startedNow
  rw [if_neg (by simp [h1]), h2]
  dsimp only
  rw [if_neg h3]

theorem dequeuedNow_eq_busy (a : RobotAvatar) (h : a.isAnimating = true) :
    dequeuedNow a = [] := by
  unfold dequeuedNow
  rw [if_pos h]

theorem dequeuedNow_eq_nil (a : RobotAvatar) (h1 : a.isAnimating = false)
    (h2 : a.animationQueue = []) : dequeuedNow a = [] := by
  unfold dequeuedNow
  rw [if_neg (by simp [h1]), h2]

theorem dequeuedNow_eq_cons (a : RobotAvatar) (t : String)
    (rest : List String) (h1 : a.isAnimating = false)
    (h2 : a.animationQueue = t :: rest) : dequeuedNow a = [t] := by
  unfold dequeuedNow
  rw [if_neg (by simp [h1]), h2]

theorem seqInv_tick (sin cos : ℚ → ℚ) (rl rr : ℕ → ℚ) (now time : ℚ)
    (q0 : List String) (m : ℚ) (a : RobotAvatar)
    (log : List (String × ℚ × ℚ)) (processed : List String)
    (hinv : SeqInv q0 m a log processed) (hm : m ≤ now) :
    SeqInv q0 now (a.animate sin cos rl rr now time)
      (log ++ startedNow a now) (processed ++ dequeuedNow a) := by
  obtain ⟨hq, hlog, hchain, hbusy, hidle⟩ := hinv
  by_cases hA : a.isAnimating = true
  · rw [startedNow_eq_busy a now hA, dequeuedNow_eq_busy a hA,
      List.append_nil, List.append_nil]
    by_cases hE : now > a.currentAnimationEnd
    · by_cases hQ : a.animationQueue = []
      · rw [animate_busy_end_empty sin cos rl rr now time a hA hE hQ]
        refine ⟨hq, hlog, hchain, ?_, ?_⟩
        · intro hfalse
          simp at hfalse
        · intro _
          rcases hbusy hA with ⟨s, hs1, hs2⟩
          exact Or.inr ⟨s, hs1, by rw [hs2]; exact hE⟩
      · rw [animate_busy_end_nonempty sin cos rl rr now time a hA hE hQ]
        refine ⟨hq, hlog, hchain, ?_, ?_⟩
        · intro hfalse
          simp at hfalse
        · intro _
          rcases hbusy hA with ⟨s, hs1, hs2⟩
          exact Or.inr ⟨s, hs1, by rw [hs2]; exact hE⟩
    · rw [animate_busy_noend sin cos rl rr now time a hA hE]
      refine ⟨hq, hlog, hchain, ?_, ?_⟩
      · intro _
        exact hbusy hA
      · intro hfalse
        rw [show ({ a with
            leftHand := (a.leftHand.update sin cos rl time).1,
            rightHand := (a.rightHand.update sin cos rr time).1 } :
            RobotAvatar).isAnimating = a.isAnimating from rfl, hA] at hfalse
        exact absurd hfalse (by simp)
  · have hA' : a.isAnimating = false := by
      cases hb : a.isAnimating
      · rfl
      · exact absurd hb hA
    cases hQ : a.animationQueue with
    | nil =>
        rw [startedNow_eq_nil a now hA' hQ, dequeuedNow_eq_nil a hA' hQ,
          List.append_nil, List.append_nil,
          animate_idle_empty sin cos rl rr now time a hA' hQ]
        refine ⟨hq, hlog, hchain, ?_, ?_⟩
        · intro hfalse
          rw [show ({ a with
              leftHand := (a.leftHand.update sin cos rl time).1,
              rightHand := (a.rightHand.update sin cos rr time).1 } :
              RobotAvatar).isAnimating = a.isAnimating from rfl, hA'] at hfalse
          exact absurd hfalse (by simp)
        · intro _
          rcases hidle hA' with hnil | ⟨s, hs1, hs2⟩
          · exact Or.inl hnil
          · exact Or.inr ⟨s, hs1, lt_of_lt_of_le hs2 hm⟩
    | cons t rest =>
        by_cases hT : t = ""
        · subst hT
          rw [startedNow_eq_falsy a now rest hA' hQ,
            dequeuedNow_eq_cons a "" rest hA' hQ, List.append_nil,
            animate_idle_falsy sin cos rl rr now time a rest hA' hQ]
          refine ⟨?_, ?_, hchain, ?_, ?_⟩
          · rw [hq, hQ]
            simp
          · rw [hlog]
            simp
          · intro hfalse
            dsimp only at hfalse
            rw [hA'] at hfalse
            exact absurd hfalse (by simp)
          · intro _
            rcases hidle hA' with hnil | ⟨s, hs1, hs2⟩
            · exact Or.inl hnil
            · exact Or.inr ⟨s, hs1, lt_of_lt_of_le hs2 hm⟩
        · rw [startedNow_eq_start a now t rest hA' hQ hT,
            dequeuedNow_eq_cons a t rest hA' hQ,
            animate_idle_start sin cos rl rr now time a t rest hA' hQ hT]
          have hlast : ∀ x ∈ log.getLast?, x.2.2 ≤ now := by
            intro x hx
            rcases hidle hA' with hnil | ⟨s, hs1, hs2⟩
            · rw [hnil] at hx
              simp at hx
            · rw [hs1] at hx
              simp at hx
              subst hx
              exact le_of_lt (lt_of_lt_of_le hs2 hm)
          refine ⟨?_, ?_, ?_, ?_, ?_⟩
          · dsimp only
            rw [startAnimation_queue]
            rw [hq, hQ]
            simp
          · rw [List.map_append, hlog, List.filter_append]
            simp [hT]
          · rw [List.chain'_append]
            refine ⟨hchain, List.chain'_singleton _, ?_⟩
            intro x hx y hy
            simp at hy
            rw [← hy]
            have hend := hlast x hx
            have := durationOf_pos t
            dsimp only
            linarith
          · intro _
            refine ⟨(t, now, now + RobotAvatar.durationOf t),
              List.getLast?_concat log, ?_⟩
            dsimp only
            rw [startAnimation_end]
          · intro hfalse
            dsimp only at hfalse
            rw [startAnimation_isAnimating] at hfalse
            exact absurd hfalse (by simp)

theorem seqInv_enq (ws : List String) (q0 : List String) (m : ℚ)
    (a : RobotAvatar) (log : List (String × ℚ × ℚ)) (processed : List String)
    (hinv : SeqInv q0 m a log processed) :
    SeqInv (q0 ++ ws) m (a.triggerAnimation ws) log processed := by
  obtain ⟨hq, hlog, hchain, hbusy, hidle⟩ := hinv
  refine ⟨?_, hlog, hchain, ?_, ?_⟩
  · rw [hq, List.append_assoc]
    rfl
  · intro h
    exact hbusy h
  · intro h
    exact hidle h

theorem seqInv_run (sin cos : ℚ → ℚ) :
    ∀ (es : List AvEvent) (q0 : List String) (m : ℚ) (a : RobotAvatar)
      (log : List (String × ℚ × ℚ)) (processed : List String),
      SeqInv q0 m a log processed → nowsLB m es = true →
      ∃ m', SeqInv (q0 ++ enqueuedOf es) m' (runAv sin cos a es)
        (log ++ runLog sin cos a es)
        (processed ++ runDequeued sin cos a es) := by
  intro es
  induction es with
  | nil =>
      intro q0 m a log processed hinv _
      exact ⟨m, by simpa [runAv, runLog, runDequeued, enqueuedOf] using hinv⟩
  | cons e rest ih =>
      cases e with
      | enq ws =>
          intro q0 m a log processed hinv hn
          simp only [nowsLB] at hn
          have h2 := ih (q0 ++ ws) m (a.triggerAnimation ws) log processed
            (seqInv_enq ws q0 m a log processed hinv) hn
          simpa [runAv, runLog, runDequeued, enqueuedOf,
            List.append_assoc] using h2
      | tick now time rl rr =>
          intro q0 m a log processed hinv hn
          simp only [nowsLB, Bool.and_eq_true, decide_eq_true_eq] at hn
          have h1 := seqInv_tick sin cos rl rr now time q0 m a log processed
            hinv hn.1
          have h2 := ih q0 now (a.animate sin cos rl rr now time)
            (log ++ startedNow a now) (processed ++ dequeuedNow a) h1 hn.2
          simpa [runAv, runLog, runDequeued, enqueuedOf,
            List.append_assoc] using h2

theorem runLog_append (sin cos : ℚ → ℚ) :
    ∀ (es1 es2 : List AvEvent) (a : RobotAvatar),
      runLog sin cos a (es1 ++ es2) =
        runLog sin cos a es1 ++ runLog sin cos (runAv sin cos a es1) es2 := by
  intro es1
  induction es1 with
  | nil => intro es2 a; rfl
  | cons e rest ih =>
      intro es2 a
      cases e with
      | enq ws => simp [runLog, runAv, ih]
      | tick now time rl rr => simp [runLog, runAv, ih, List.append_assoc]

theorem startedNow_length_le (a : RobotAvatar) (now : ℚ) :
    (startedNow a now).length ≤ 1 := by
  unfold startedNow
  split
  · simp
  · split
    · simp
    · split <;> simp

theorem startedNow_ne_nil_idle (a : RobotAvatar) (now : ℚ)
    (h : startedNow a now ≠ []) : a.isAnimating = false := by
  unfold startedNow at h
  by_cases hA : a.isAnimating = true
  · rw [if_pos hA] at h
    exact absurd rfl h
  · cases hb : a.isAnimating
    · rfl
    · exact absurd hb hA

/-- Claim C4: over any monotone run, playback begins tokens in exact
FIFO enqueue order (the started tokens are the truthy tokens of a
prefix of the enqueued stream, the unprocessed suffix being exactly
the remaining queue), slots never overlap (each recorded end time is
at most the wall-clock start of the next slot), and each tick begins
at most one token, doing so only when no token is currently playing. -/
theorem claim_C4 (sin cos : ℚ → ℚ) (es : List AvEvent) (m : ℚ)
    (hmono : nowsLB m es = true) :
    (∃ k, (runLog sin cos RobotAvatar.build es).map (fun s => s.1) =
            ((enqueuedOf es).take k).filter (fun t => t ≠ "") ∧
          (runAv sin cos RobotAvatar.build es).animationQueue =
            (enqueuedOf es).drop k) ∧
    List.Chain' (fun s1 s2 => s1.2.2 ≤ s2.2.1)
      (runLog sin cos RobotAvatar.build es) ∧
    (∀ (es1 : List AvEvent) (e : AvEvent),
       (runLog sin cos RobotAvatar.build (es1 ++ [e])).length ≤
         (runLog sin cos RobotAvatar.build es1).length + 1 ∧
       ((runLog sin cos RobotAvatar.build (es1 ++ [e])).length =
           (runLog sin cos RobotAvatar.build es1).length + 1 →
         (runAv sin cos RobotAvatar.build es1).isAnimating = false)) := by
  have hinit : SeqInv [] m RobotAvatar.build [] [] := by
    refine ⟨rfl, rfl, List.chain'_nil, ?_, fun _ => Or.inl rfl⟩
    intro h
    simp [RobotAvatar.build] at h
  obtain ⟨m', hinv⟩ := seqInv_run sin cos es [] m RobotAvatar.build [] []
    hinit hmono
  obtain ⟨hq, hlog, hchain, -, -⟩ := hinv
  simp only [List.nil_append] at hq hlog hchain
  refine ⟨⟨(runDequeued sin cos RobotAvatar.build es).length, ?_, ?_⟩,
    hchain, ?_⟩
  · rw [hlog, hq, List.take_left]
  · rw [hq, List.drop_left]
  · intro es1 e
    rw [runLog_append sin cos es1 [e] RobotAvatar.build]
    cases e with
    | enq ws =>
        constructor
        · simp [runLog, runAv]
        · intro h
          simp [runLog, runAv] at h
    | tick now time rl rr =>
        have hlen := startedNow_length_le (runAv sin cos RobotAvatar.build es1) now
        constructor
        · simp only [runLog, List.append_nil, List.length_append]
          omega
        · intro h
          simp only [runLog, List.append_nil, List.length_append] at h
          have hne : startedNow (runAv sin cos RobotAvatar.build es1) now ≠ [] := by
            intro hnil
            rw [hnil] at h
            simp at h
          exact startedNow_ne_nil_idle _ now hne

/-- Witness for C4: enqueue HELLO and CHAR_A, then three monotone
ticks. -/
theorem claim_C4_witness :
    nowsLB 0 [AvEvent.enq ["HELLO", "CHAR_A"],
      AvEvent.tick 0 0 (fun _ => 0) (fun _ => 0),
      AvEvent.tick 1000 1 (fun _ => 0) (fun _ => 0),
      AvEvent.tick 2000 2 (fun _ => 0) (fun _ => 0)] = true ∧
    List.Chain' (fun s1 s2 => s1.2.2 ≤ s2.2.1)
      (runLog (fun _ => 0) (fun _ => 0) RobotAvatar.build
        [AvEvent.enq ["HELLO", "CHAR_A"],
         AvEvent.tick 0 0 (fun _ => 0) (fun _ => 0),
         AvEvent.tick 1000 1 (fun _ => 0) (fun _ => 0),
         AvEvent.tick 2000 2 (fun _ => 0) (fun _ => 0)]) :=
  ⟨by norm_num [nowsLB],
   (claim_C4 (fun _ => 0) (fun _ => 0)
     [AvEvent.enq ["HELLO", "CHAR_A"],
      AvEvent.tick 0 0 (fun _ => 0) (fun _ => 0),
      AvEvent.tick 1000 1 (fun _ => 0) (fun _ => 0),
      AvEvent.tick 2000 2 (fun _ => 0) (fun _ => 0)] 0
     (by norm_num [nowsLB])).2.1⟩
